import Mathlib

/-!
Shallow embedding of the muver orchestration layer
(src/muver/call_variants.py and src/muver/pipeline.py).

The two entry points, call_variants and run_pipeline, are I/O programs: they
call external collaborators (samtools, picard, gatk, bowtie2, and the sibling
muver modules reference, sample, repeats, repeat_indels, bias_distribution,
depth_distribution, variant_list, utils) and write files.  We embed each entry
point as a pure function from an environment of collaborator oracles to a
trace of events, mirroring the Python statement sequence branch for branch.
Collaborator calls that can raise are modelled as oracles returning Except;
the worker pool (multiprocessing.Pool.map) is modelled by a traced sequential
map that propagates the first raised error to the caller, matching the fact
that Pool.map re-raises a worker exception at the call site.
-/

namespace Muver

/-- Chromosome sizes table: chromosome name and length pairs. -/
abbrev ChromSizes := List (String × Nat)

/-- Tandem repeat record, one line of the reference repeats cache file. -/
structure RepeatRegion where
  chromosome : String
  start : Nat
  stop : Nat
  unit : String
  count : Nat
  deriving Repr, DecidableEq

instance : Inhabited RepeatRegion :=
  ⟨{ chromosome := "", start := 0, stop := 0, unit := "", count := 0 }⟩

/-- Repeat indel fits table, as returned by repeat_indels.read_fits. -/
abbrev FitsDict := List (Nat × Int)

/-- Intermediate file names of a sample, mirroring the dictionary returned by
Sample.get_intermediate_file_names.  Fields are named after the dictionary
keys used in pipeline.py, with leading underscores dropped. -/
structure IntermediateFiles where
  sams : List String
  same_chr_sams : List String
  mapq_filtered_sams : List String
  read_group_bams : List String
  deduplicated_bams : List String
  deduplication_metrics : List String
  interval_files : List String
  realignment_logs : List String
  realigned_bams : List String
  fixed_mates_bams : List String
  merged_bam : String
  mpileup_out : String
  strand_bias_distribution : String
  depth_bedgraph : String
  depth_distribution : String
  filtered_sites : String
  repeat_indel_fits : String
  deriving Repr, DecidableEq

instance : Inhabited IntermediateFiles :=
  ⟨{ sams := [], same_chr_sams := [], mapq_filtered_sams := [],
     read_group_bams := [], deduplicated_bams := [],
     deduplication_metrics := [], interval_files := [],
     realignment_logs := [], realigned_bams := [], fixed_mates_bams := [],
     merged_bam := "", mpileup_out := "", strand_bias_distribution := "",
     depth_bedgraph := "", depth_distribution := "", filtered_sites := "",
     repeat_indel_fits := "" }⟩

/-- Sample record, with the fields of sample.Sample that pipeline.py and
call_variants.py read or write.  sams holds the names of the temporary SAM
files (Python sample attribute holding file objects, accessed via .name);
fastqs holds the FASTQ groups; strand_bias_std and repeat_indel_fits_dict
start out unset and are populated by the characterization phase. -/
structure Sample where
  sample_name : String
  fastqs : List (List String)
  sams : List String
  merged_bam : String
  repeat_indel_header : String
  repeat_indel_fits : String
  intermediate_files : IntermediateFiles
  strand_bias_std : Option Int
  repeat_indel_fits_dict : Option FitsDict
  deriving Repr, DecidableEq

instance : Inhabited Sample :=
  ⟨{ sample_name := "", fastqs := [], sams := [], merged_bam := "",
     repeat_indel_header := "", repeat_indel_fits := "",
     intermediate_files := default, strand_bias_std := none,
     repeat_indel_fits_dict := none }⟩

/-- Observable events of the two entry points: one event per call to an
external collaborator or sibling-module service, carrying the arguments the
Python code passes. -/
inductive Event where
  | readSamplesFromText (path : String) (exp_dir : Option String)
  | createReferenceIndices (ref : String)
  | createRepeatFile (ref : String) (path : String)
  | readChromSizesFromFile (path : String)
  | readChromSizes (ref : String)
  | buildVariantList (input_vcf : String) (samples : List Sample)
      (excluded_regions : Option String) (repeat_file : String)
      (control : Option Sample) (chrom_sizes : ChromSizes)
  | writeOutputTable (path : String)
  | writeOutputVcf (path : String)
  | checkReferenceIndices (ref : String)
  | stderrWrite (msg : String)
  | exitCall
  | generateExperimentDirectory (dir : String)
  | generateIntermediateFiles (sample_name : String)
  | align (fastq_1 : String) (ref : String) (sam : String)
      (fastq_2 : Option String) (p : Nat)
  | processSamsTask (sample_name : String)
  | runHaplotypeCaller (bams : List String) (ref : String) (vcf : String)
      (log : String) (nct : Nat)
  | analyzeDepthTask (index : Nat)
  | assignStrandBias (index : Nat) (value : Int)
  | readRepeats (path : String)
  | repeatIndelTask (fits_file : String)
  | readFitsAssign (fits_file : String)
  | clearTempFileIndices (sample_name : String)
  | writeSampleInfoFile (samples : List Sample) (path : String)
  deriving Repr, DecidableEq

instance : Inhabited Event := ⟨Event.exitCall⟩

/-- Terminal status of a run_pipeline invocation: normal completion, the
explicit exit() taken when the reference is not indexed, or a worker-task
exception propagated out of a Pool.map call. -/
inductive Outcome where
  | completed
  | exited
  | failed (e : String)
  deriving Repr, DecidableEq

/-- Environment of collaborator oracles.  Each field stands for one external
function the orchestration code calls; fallible external tools return Except.
Fields keep the Python callee names. -/
structure Env where
  read_samples_from_text : String → Option String → List Sample
  check_reference_indices : String → Bool
  path_exists : String → Bool
  read_chrom_sizes_from_file : String → ChromSizes
  read_chrom_sizes : String → ChromSizes
  read_repeats : String → List RepeatRegion
  read_fits : String → FitsDict
  remove_diff_chr_pairs : String → String → Except String Unit
  mapq_filter : String → String → Except String Unit
  add_read_groups : String → String → String → Except String Unit
  deduplicate : String → String → String → Except String Unit
  realigner_target_creator : String → String → String → Except String Unit
  indel_realigner : String → String → String → String → String → Except String Unit
  fix_mate_information : String → String → Except String Unit
  merge_bams : List String → String → Except String Unit
  run_mpileup : String → String → String → Except String Unit
  calculate_bias_distribution_mpileup : String → String → String → Except String (Int × Int)
  get_mpileup_depths : String → String → String → Except String Unit
  calculate_depth_distribution_mpileup : String → String → Except String (Int × Int)
  filter_regions_by_depth_mpileup : String → ChromSizes → Int → Int → String → Except String Unit
  fit_repeat_indel_rates : List RepeatRegion → String → String → String → Except String Unit

/-- Index of the last occurrence of a character in a character list. -/
def lastIndexOf (cs : List Char) (c : Char) : Option Nat :=
  ((cs.enum.filter (fun q => q.2 == c)).map (fun q => q.1)).getLast?

/-- Python os.path.splitext for POSIX paths: split off the extension starting
at the last dot of the final path component, unless that component consists
of leading dots up to it. -/
def splitext (p : String) : String × String :=
  let cs := p.data
  let sepIdx : Nat :=
    match lastIndexOf cs (Char.ofNat 47) with
    | some k => k + 1
    | none => 0
  match lastIndexOf cs (Char.ofNat 46) with
  | none => (p, "")
  | some d =>
    if sepIdx ≤ d ∧ ((cs.drop sepIdx).take (d - sepIdx)).any (fun c => c != Char.ofNat 46) then
      (String.mk (cs.take d), String.mk (cs.drop d))
    else
      (p, "")

/-- Python os.path.join restricted to the uses in pipeline.py: every second
component is a relative name, so joining inserts a single separator. -/
def joinPath (a b : String) : String := a ++ "/" ++ b

/-- Functional update of the element at an index, leaving other positions and
the length unchanged; models in-place mutation of a list element. -/
def updateAt {α : Type} (xs : List α) (i : Nat) (f : α → α) : List α :=
  match xs, i with
  | [], _ => []
  | x :: rest, 0 => f x :: rest
  | x :: rest, n + 1 => x :: updateAt rest n f

/-- Traced model of multiprocessing.Pool.map over fallible tasks: tasks run in
list order, each contributing one event; the first raised error is propagated
to the caller (Pool.map re-raises a worker exception), otherwise the list of
results is returned in input order. -/
def pool_map_traced {α β : Type} (f : α → Except String β) (ev : α → Event) :
    List α → List Event × Except String (List β)
  | [] => ([], Except.ok [])
  | a :: as =>
    match f a with
    | Except.error e => ([ev a], Except.error e)
    | Except.ok b =>
      let (t, r) := pool_map_traced f ev as
      (ev a :: t,
        match r with
        | Except.error e => Except.error e
        | Except.ok bs => Except.ok (b :: bs))

/-- Boolean test for a failed Except result. -/
def except_failed {α : Type} : Except String α → Bool
  | Except.error _ => true
  | Except.ok _ => false

/-- One iteration of the per-file loop in process_sams (pipeline.py lines
33 to 68): the seven read-processing steps applied to the files at index i. -/
def process_sams_step (env : Env) (sample_name : String) (f : IntermediateFiles)
    (reference_assembly : String) (i : Nat) : Except String Unit := do
  env.remove_diff_chr_pairs (f.sams.getD i "") (f.same_chr_sams.getD i "")
  env.mapq_filter (f.same_chr_sams.getD i "") (f.mapq_filtered_sams.getD i "")
  env.add_read_groups (f.mapq_filtered_sams.getD i "") (f.read_group_bams.getD i "") sample_name
  env.deduplicate (f.read_group_bams.getD i "") (f.deduplicated_bams.getD i "")
    (f.deduplication_metrics.getD i "")
  env.realigner_target_creator reference_assembly (f.deduplicated_bams.getD i "")
    (f.interval_files.getD i "")
  env.indel_realigner reference_assembly (f.realignment_logs.getD i "")
    (f.deduplicated_bams.getD i "") (f.interval_files.getD i "")
    (f.realigned_bams.getD i "")
  env.fix_mate_information (f.realigned_bams.getD i "") (f.fixed_mates_bams.getD i "")

/-- Worker task process_sams (pipeline.py lines 19 to 73): loop the processing
steps over every SAM of the sample, then merge the processed BAMs. -/
def process_sams (env : Env) (args : String × IntermediateFiles × String) :
    Except String Unit := do
  let (sample_name, intermediate_files, reference_assembly) := args
  (List.range intermediate_files.sams.length).forM
    (process_sams_step env sample_name intermediate_files reference_assembly)
  env.merge_bams intermediate_files.fixed_mates_bams intermediate_files.merged_bam

/-- Worker task characterize_repeat_indel_rates (pipeline.py lines 76 to 87). -/
def characterize_repeat_indel_rates (env : Env)
    (args : IntermediateFiles × List RepeatRegion × String) : Except String Unit :=
  let (intermediate_files, repeats, repeat_indel_header) := args
  env.fit_repeat_indel_rates repeats intermediate_files.merged_bam
    intermediate_files.repeat_indel_fits repeat_indel_header

/-- Worker task analyze_depth_distribution (pipeline.py lines 90 to 134):
runs mpileup, fits the strand-bias distribution, computes depths, fits the
depth distribution, filters positions by depth, and returns the passed index
together with the strand-bias standard deviation. -/
def analyze_depth_distribution (env : Env)
    (args : Nat × IntermediateFiles × String × ChromSizes) :
    Except String (Nat × Int) := do
  let (index, intermediate_files, reference_assembly, chrom_sizes) := args
  env.run_mpileup intermediate_files.merged_bam reference_assembly
    intermediate_files.mpileup_out
  let bias ← env.calculate_bias_distribution_mpileup intermediate_files.mpileup_out
    reference_assembly intermediate_files.strand_bias_distribution
  let strand_bias_std := bias.2
  env.get_mpileup_depths intermediate_files.merged_bam reference_assembly
    intermediate_files.depth_bedgraph
  let ms ← env.calculate_depth_distribution_mpileup intermediate_files.mpileup_out
    intermediate_files.depth_distribution
  env.filter_regions_by_depth_mpileup intermediate_files.mpileup_out chrom_sizes
    ms.1 ms.2 intermediate_files.filtered_sites
  return (index, strand_bias_std)

/-- Alignment calls of one sample (pipeline.py lines 162 to 170): one bowtie2
invocation per FASTQ group; a group of two files passes the second as mate,
any other group passes its first file with mate None. -/
def align_events (reference_assembly : String) (p : Nat) (s : Sample) :
    List Event :=
  s.fastqs.enum.map (fun ifq =>
    if ifq.2.length = 2 then
      Event.align (ifq.2.getD 0 "") reference_assembly (s.sams.getD ifq.1 "")
        (some (ifq.2.getD 1 "")) p
    else
      Event.align (ifq.2.getD 0 "") reference_assembly (s.sams.getD ifq.1 "")
        none p)

/-- Argument tuples handed to the process_sams pool map
(pipeline.py lines 173 to 177). -/
def ps_args (samples : List Sample) (reference_assembly : String) :
    List (String × IntermediateFiles × String) :=
  samples.map (fun s => (s.sample_name, s.intermediate_files, reference_assembly))

/-- Argument tuples handed to the analyze_depth_distribution pool map
(pipeline.py lines 201 to 206). -/
def ad_args (samples : List Sample) (reference_assembly : String)
    (chrom_sizes : ChromSizes) :
    List (Nat × IntermediateFiles × String × ChromSizes) :=
  ((List.range samples.length).zip (samples.map (fun s => s.intermediate_files))).map
    (fun x => (x.1, x.2, reference_assembly, chrom_sizes))

/-- Argument tuples handed to the characterize_repeat_indel_rates pool map
(pipeline.py lines 215 to 219). -/
def ri_args (samples : List Sample) (repeats : List RepeatRegion) :
    List (IntermediateFiles × List RepeatRegion × String) :=
  samples.map (fun s => (s.intermediate_files, repeats, s.repeat_indel_header))

/-- Merge loop of pipeline.py lines 207 to 208: each returned pair assigns its
strand-bias value to the sample at the returned index. -/
def assign_strand_bias (results : List (Nat × Int)) (samples : List Sample) :
    List Sample :=
  results.foldl
    (fun ss iv => updateAt ss iv.1 (fun s => { s with strand_bias_std := some iv.2 }))
    samples

/-- Merge loop of pipeline.py lines 220 to 221: every sample reads its own
fits file into repeat_indel_fits_dict. -/
def assign_repeat_fits (env : Env) (samples : List Sample) : List Sample :=
  samples.map
    (fun s => { s with repeat_indel_fits_dict := some (env.read_fits s.repeat_indel_fits) })

/-- Entry point call_variants (call_variants.py lines 11 to 39), as the trace
of collaborator calls it performs plus a terminal outcome.  The function has
no abort branch in the source and unconditionally creates the reference
indices.  When the repeat cache file is absent, line 24 calls
create_repeat_file, but call_variants.py never imports that name (the import
exists only in pipeline.py), so the Python name lookup raises NameError and
the run crashes right there: no cache is built and nothing after that line
executes.  When the cache file is present, the run continues: chromosome
sizes are read from the given file when one is supplied and from the
reference otherwise, the variant list is built and both outputs are
written. -/
def call_variants (env : Env)
    (reference_assembly control_sample sample_list input_vcf output_header : String)
    (chrom_sizes : Option String) (excluded_regions : Option String) :
    List Event × Outcome :=
  let samples := env.read_samples_from_text sample_list none
  let control := samples.find? (fun x => x.sample_name == control_sample)
  let repeat_file := (splitext reference_assembly).1 ++ ".repeats"
  if env.path_exists repeat_file = false then
    ([Event.readSamplesFromText sample_list none,
      Event.createReferenceIndices reference_assembly],
     Outcome.failed "NameError: name create_repeat_file is not defined")
  else
    let sizes :=
      match chrom_sizes with
      | some f => env.read_chrom_sizes_from_file f
      | none => env.read_chrom_sizes reference_assembly
    let text_output := output_header ++ ".variants.txt"
    let vcf_output := output_header ++ ".variants.vcf"
    ([Event.readSamplesFromText sample_list none,
      Event.createReferenceIndices reference_assembly,
      (match chrom_sizes with
       | some f => Event.readChromSizesFromFile f
       | none => Event.readChromSizes reference_assembly),
      Event.buildVariantList input_vcf samples excluded_regions repeat_file
        control sizes,
      Event.writeOutputTable text_output,
      Event.writeOutputVcf vcf_output],
     Outcome.completed)

/-- Entry point run_pipeline (pipeline.py lines 137 to 245), as the trace of
collaborator calls plus a terminal outcome.  The control sample is looked up
once by name before the characterization phase (pipeline.py line 153); since
Python keeps a reference to the mutable sample object, the VariantList later
sees the updated record, which the embedding models by remembering the index
of the first name match and reading the final record at that index. -/
def run_pipeline (env : Env)
    (reference_assembly fastq_list control_sample experiment_directory : String)
    (p : Nat) (excluded_regions : Option String) : List Event × Outcome :=
  if env.check_reference_indices reference_assembly = false then
    ([Event.checkReferenceIndices reference_assembly,
      Event.stderrWrite "Reference assembly not indexed. Run \"muver index_reference\".\n",
      Event.exitCall], Outcome.exited)
  else
    let samples := env.read_samples_from_text fastq_list (some experiment_directory)
    let control_index := samples.findIdx? (fun x => x.sample_name == control_sample)
    let t2 : List Event :=
      [Event.checkReferenceIndices reference_assembly,
       Event.generateExperimentDirectory experiment_directory,
       Event.readSamplesFromText fastq_list (some experiment_directory)]
      ++ samples.map (fun s => Event.generateIntermediateFiles s.sample_name)
      ++ (samples.map (align_events reference_assembly p)).flatten
    match pool_map_traced (process_sams env) (fun a => Event.processSamsTask a.1)
        (ps_args samples reference_assembly) with
    | (tm1, Except.error e) => (t2 ++ tm1, Outcome.failed e)
    | (tm1, Except.ok _) =>
      let haplotype_caller_vcf :=
        joinPath (joinPath experiment_directory "gatk_output") "haplotype_caller_output.vcf"
      let haplotype_caller_log :=
        joinPath (joinPath experiment_directory "logs") "haplotype_caller.log"
      let bams := samples.map (fun s => s.merged_bam)
      let chrom_sizes := env.read_chrom_sizes reference_assembly
      let t5 := t2 ++ tm1 ++
        [Event.runHaplotypeCaller bams reference_assembly haplotype_caller_vcf
          haplotype_caller_log p,
         Event.readChromSizes reference_assembly]
      match pool_map_traced (analyze_depth_distribution env)
          (fun a => Event.analyzeDepthTask a.1)
          (ad_args samples reference_assembly chrom_sizes) with
      | (tm2, Except.error e) => (t5 ++ tm2, Outcome.failed e)
      | (tm2, Except.ok strand_bias_std_values) =>
        let samples2 := assign_strand_bias strand_bias_std_values samples
        let repeat_file := (splitext reference_assembly).1 ++ ".repeats"
        let repeats := env.read_repeats repeat_file
        let t8 := t5 ++ tm2 ++
          strand_bias_std_values.map (fun iv => Event.assignStrandBias iv.1 iv.2) ++
          [Event.readRepeats repeat_file]
        match pool_map_traced (characterize_repeat_indel_rates env)
            (fun a => Event.repeatIndelTask a.1.repeat_indel_fits)
            (ri_args samples2 repeats) with
        | (tm3, Except.error e) => (t8 ++ tm3, Outcome.failed e)
        | (tm3, Except.ok _) =>
          let samples3 := assign_repeat_fits env samples2
          let control := control_index.map (fun i => samples3.getD i default)
          let text_output :=
            joinPath (joinPath experiment_directory "output") "mutations.txt"
          let vcf_output :=
            joinPath (joinPath experiment_directory "output") "mutations.vcf"
          let sample_info_file := joinPath experiment_directory "sample_info.txt"
          (t8 ++ tm3 ++
            samples3.map (fun s => Event.readFitsAssign s.repeat_indel_fits) ++
            [Event.buildVariantList haplotype_caller_vcf samples3 excluded_regions
              repeat_file control chrom_sizes,
             Event.writeOutputTable text_output,
             Event.writeOutputVcf vcf_output] ++
            samples3.map (fun s => Event.clearTempFileIndices s.sample_name) ++
            [Event.writeSampleInfoFile samples3 sample_info_file],
           Outcome.completed)

/-- Boolean test for the output-writing events: the variant table, the VCF and
the sample info file. -/
def is_output_write : Event → Bool
  | Event.writeOutputTable _ => true
  | Event.writeOutputVcf _ => true
  | Event.writeSampleInfoFile _ _ => true
  | _ => false

/-- Boolean test for the events run_pipeline performs after the variant list
has been constructed: output writes and per-sample cleanup. -/
def is_post_aggregation : Event → Bool
  | Event.writeOutputTable _ => true
  | Event.writeOutputVcf _ => true
  | Event.clearTempFileIndices _ => true
  | Event.writeSampleInfoFile _ _ => true
  | _ => false

/-- Boolean test for a repeat cache build event. -/
def is_create_repeat_file : Event → Bool
  | Event.createRepeatFile _ _ => true
  | _ => false

/-- Boolean test for a variant-table write event. -/
def is_write_table : Event → Bool
  | Event.writeOutputTable _ => true
  | _ => false

/-- Boolean test for a VCF write event. -/
def is_write_vcf : Event → Bool
  | Event.writeOutputVcf _ => true
  | _ => false


/-- Concrete intermediate files of the first test sample. -/
def files_ctl : IntermediateFiles :=
  { sams := ["s0.sam"], same_chr_sams := ["s0.chr.sam"],
    mapq_filtered_sams := ["s0.mapq.sam"], read_group_bams := ["s0.rg.bam"],
    deduplicated_bams := ["s0.dedup.bam"], deduplication_metrics := ["s0.metrics"],
    interval_files := ["s0.intervals"], realignment_logs := ["s0.realign.log"],
    realigned_bams := ["s0.realigned.bam"], fixed_mates_bams := ["s0.fixed.bam"],
    merged_bam := "s0.merged.bam", mpileup_out := "mp0",
    strand_bias_distribution := "s0.bias", depth_bedgraph := "s0.bedgraph",
    depth_distribution := "s0.depth", filtered_sites := "s0.filtered",
    repeat_indel_fits := "fits0" }

/-- Concrete intermediate files of the second test sample. -/
def files_case : IntermediateFiles :=
  { sams := ["s1.sam"], same_chr_sams := ["s1.chr.sam"],
    mapq_filtered_sams := ["s1.mapq.sam"], read_group_bams := ["s1.rg.bam"],
    deduplicated_bams := ["s1.dedup.bam"], deduplication_metrics := ["s1.metrics"],
    interval_files := ["s1.intervals"], realignment_logs := ["s1.realign.log"],
    realigned_bams := ["s1.realigned.bam"], fixed_mates_bams := ["s1.fixed.bam"],
    merged_bam := "s1.merged.bam", mpileup_out := "mp1",
    strand_bias_distribution := "s1.bias", depth_bedgraph := "s1.bedgraph",
    depth_distribution := "s1.depth", filtered_sites := "s1.filtered",
    repeat_indel_fits := "fits1" }

/-- Concrete control sample with one paired-end FASTQ group. -/
def sample_ctl : Sample :=
  { sample_name := "ctl", fastqs := [["r1.fq", "r2.fq"]], sams := ["s0.sam"],
    merged_bam := "s0.merged.bam", repeat_indel_header := "hdr0",
    repeat_indel_fits := "fits0", intermediate_files := files_ctl,
    strand_bias_std := none, repeat_indel_fits_dict := none }

/-- Concrete case sample with one single-end FASTQ group. -/
def sample_case : Sample :=
  { sample_name := "case", fastqs := [["u1.fq"]], sams := ["s1.sam"],
    merged_bam := "s1.merged.bam", repeat_indel_header := "hdr1",
    repeat_indel_fits := "fits1", intermediate_files := files_case,
    strand_bias_std := none, repeat_indel_fits_dict := none }

/-- Concrete environment in which every collaborator call succeeds, the
reference is indexed, and the repeat cache file is absent.  The strand-bias
oracle returns a value depending on the mpileup file it is given, so each
sample has a distinguishable bias standard deviation. -/
def env_ok : Env :=
  { read_samples_from_text := fun _ _ => [sample_ctl, sample_case],
    check_reference_indices := fun _ => true,
    path_exists := fun _ => false,
    read_chrom_sizes_from_file := fun _ => [("chrI", 100)],
    read_chrom_sizes := fun _ => [("chrI", 100)],
    read_repeats := fun _ => [],
    read_fits := fun q => if q == "fits0" then [(1, 5)] else [(1, 9)],
    remove_diff_chr_pairs := fun _ _ => Except.ok (),
    mapq_filter := fun _ _ => Except.ok (),
    add_read_groups := fun _ _ _ => Except.ok (),
    deduplicate := fun _ _ _ => Except.ok (),
    realigner_target_creator := fun _ _ _ => Except.ok (),
    indel_realigner := fun _ _ _ _ _ => Except.ok (),
    fix_mate_information := fun _ _ => Except.ok (),
    merge_bams := fun _ _ => Except.ok (),
    run_mpileup := fun _ _ _ => Except.ok (),
    calculate_bias_distribution_mpileup :=
      fun mp _ _ => Except.ok (7, if mp == "mp0" then 30 else 31),
    get_mpileup_depths := fun _ _ _ => Except.ok (),
    calculate_depth_distribution_mpileup := fun _ _ => Except.ok (25, 4),
    filter_regions_by_depth_mpileup := fun _ _ _ _ _ => Except.ok (),
    fit_repeat_indel_rates := fun _ _ _ _ => Except.ok () }

/-- Variant of env_ok in which the first read-processing step of every
per-sample SAM worker task raises. -/
def env_task_fail : Env :=
  { env_ok with remove_diff_chr_pairs := fun _ _ => Except.error "boom" }

/-- Variant of env_ok in which the reference assembly is not indexed. -/
def env_no_index : Env :=
  { env_ok with check_reference_indices := fun _ => false }

/-- Variant of env_ok in which the repeat cache file is present, so that a
call_variants run is not stopped by the NameError at the unimported
create_repeat_file call. -/
def env_cache : Env :=
  { env_ok with path_exists := fun _ => true }

/-- Variant of env_cache in which the reference assembly is not indexed. -/
def env_no_index_cache : Env :=
  { env_cache with check_reference_indices := fun _ => false }

/-- Boolean test that a string ends with the given suffix. -/
def strEndsWith (s suffix : String) : Bool :=
  List.isSuffixOf suffix.data s.data

/-! Helper lemmas about the list and pool combinators used by the embedding. -/

theorem updateAt_length {α : Type} (xs : List α) (i : Nat) (f : α → α) :
    (updateAt xs i f).length = xs.length := by
  induction xs generalizing i with
  | nil => rfl
  | cons x rest ih =>
    cases i with
    | zero => rfl
    | succ n => simp [updateAt, ih]

theorem updateAt_getD_ne {α : Type} (xs : List α) (i j : Nat) (f : α → α) (d : α)
    (h : j ≠ i) : (updateAt xs i f).getD j d = xs.getD j d := by
  induction xs generalizing i j with
  | nil => rfl
  | cons x rest ih =>
    cases i with
    | zero =>
      cases j with
      | zero => exact absurd rfl h
      | succ m => simp [updateAt]
    | succ n =>
      cases j with
      | zero => rfl
      | succ m =>
        simp only [updateAt, List.getD_cons_succ]
        exact ih n m (fun hc => h (by simp [hc]))

theorem updateAt_getD_self {α : Type} (xs : List α) (i : Nat) (f : α → α) (d : α)
    (h : i < xs.length) : (updateAt xs i f).getD i d = f (xs.getD i d) := by
  induction xs generalizing i with
  | nil => simp at h
  | cons x rest ih =>
    cases i with
    | zero => rfl
    | succ n =>
      simp only [updateAt, List.getD_cons_succ]
      exact ih n (by simpa using h)

theorem updateAt_map {α β : Type} (xs : List α) (i : Nat) (f : α → α) (g : α → β)
    (hg : ∀ x, g (f x) = g x) : (updateAt xs i f).map g = xs.map g := by
  induction xs generalizing i with
  | nil => rfl
  | cons x rest ih =>
    cases i with
    | zero => simp [updateAt, hg]
    | succ n => simp [updateAt, ih]

theorem assign_strand_bias_cons (iv : Nat × Int) (rest : List (Nat × Int))
    (samples : List Sample) :
    assign_strand_bias (iv :: rest) samples =
      assign_strand_bias rest
        (updateAt samples iv.1 (fun s => { s with strand_bias_std := some iv.2 })) := rfl

theorem assign_strand_bias_length (results : List (Nat × Int)) (samples : List Sample) :
    (assign_strand_bias results samples).length = samples.length := by
  induction results generalizing samples with
  | nil => rfl
  | cons iv rest ih =>
    rw [assign_strand_bias_cons, ih, updateAt_length]

theorem assign_strand_bias_map {γ : Type} (results : List (Nat × Int))
    (samples : List Sample) (g : Sample → γ)
    (hg : ∀ s v, g { s with strand_bias_std := some v } = g s) :
    (assign_strand_bias results samples).map g = samples.map g := by
  induction results generalizing samples with
  | nil => rfl
  | cons iv rest ih =>
    rw [assign_strand_bias_cons, ih, updateAt_map]
    intro s
    exact hg s iv.2

theorem assign_strand_bias_getD_not_mem (results : List (Nat × Int))
    (samples : List Sample) (i : Nat) (h : i ∉ results.map Prod.fst) :
    (assign_strand_bias results samples).getD i default = samples.getD i default := by
  induction results generalizing samples with
  | nil => rfl
  | cons iv rest ih =>
    simp only [List.map_cons, List.mem_cons] at h
    push_neg at h
    rw [assign_strand_bias_cons, ih _ h.2, updateAt_getD_ne]
    exact h.1

theorem assign_strand_bias_getD_mem (results : List (Nat × Int))
    (samples : List Sample) (i : Nat) (v : Int)
    (hnd : (results.map Prod.fst).Nodup) (hmem : (i, v) ∈ results)
    (hlen : i < samples.length) :
    (assign_strand_bias results samples).getD i default =
      { samples.getD i default with strand_bias_std := some v } := by
  induction results generalizing samples with
  | nil => simp at hmem
  | cons iv rest ih =>
    simp only [List.map_cons, List.nodup_cons] at hnd
    rw [assign_strand_bias_cons]
    rcases List.mem_cons.mp hmem with heq | hrest
    · have hi : iv.1 = i := by rw [← heq]
      have hni : i ∉ rest.map Prod.fst := by rw [← hi]; exact hnd.1
      rw [assign_strand_bias_getD_not_mem rest _ i hni, hi,
        updateAt_getD_self _ _ _ _ hlen, ← heq]
    · have hne : i ≠ iv.1 := by
        intro hc
        exact hnd.1 (hc ▸ (List.mem_map.mpr ⟨(i, v), hrest, rfl⟩))
      rw [ih _ hnd.2 hrest (by rw [updateAt_length]; exact hlen),
        updateAt_getD_ne _ _ _ _ _ hne]

theorem pool_map_traced_ok_not_failed {α β : Type} (f : α → Except String β)
    (ev : α → Event) (xs : List α) (t : List Event) (rs : List β)
    (h : pool_map_traced f ev xs = (t, Except.ok rs)) :
    ∀ a ∈ xs, except_failed (f a) = false := by
  induction xs generalizing t rs with
  | nil => intro a ha; simp at ha
  | cons x rest ih =>
    intro a ha
    rcases hfx : f x with e | b
    · simp [pool_map_traced, hfx] at h
    · rcases hrec : pool_map_traced f ev rest with ⟨t2, r2⟩
      cases r2 with
      | error e => simp [pool_map_traced, hfx, hrec] at h
      | ok bs =>
        rcases List.mem_cons.mp ha with rfl | hmem
        · simp [except_failed, hfx]
        · exact ih t2 bs (by simp [hrec]) a hmem

theorem pool_map_traced_error_of_failed {α β : Type} (f : α → Except String β)
    (ev : α → Event) (xs : List α) (a : α) (ha : a ∈ xs)
    (hf : except_failed (f a) = true) :
    ∃ t e, pool_map_traced f ev xs = (t, Except.error e) := by
  induction xs with
  | nil => simp at ha
  | cons x rest ih =>
    rcases hfx : f x with e | b
    · exact ⟨[ev x], e, by simp [pool_map_traced, hfx]⟩
    · rcases List.mem_cons.mp ha with rfl | hmem
      · rw [hfx] at hf; simp [except_failed] at hf
      · rcases ih hmem with ⟨t, e, hrec⟩
        exact ⟨ev x :: t, e, by simp [pool_map_traced, hfx, hrec]⟩

theorem pool_map_traced_ok_length {α β : Type} (f : α → Except String β)
    (ev : α → Event) (xs : List α) (t : List Event) (rs : List β)
    (h : pool_map_traced f ev xs = (t, Except.ok rs)) : rs.length = xs.length := by
  induction xs generalizing t rs with
  | nil => simp [pool_map_traced] at h; simp [h.2]
  | cons x rest ih =>
    rcases hfx : f x with e | b
    · simp [pool_map_traced, hfx] at h
    · rcases hrec : pool_map_traced f ev rest with ⟨t2, r2⟩
      cases r2 with
      | error e => simp [pool_map_traced, hfx, hrec] at h
      | ok bs =>
        simp [pool_map_traced, hfx, hrec] at h
        rw [← h.2]
        simp [ih t2 bs (by simp [hrec])]

theorem pool_map_traced_ok_getD {α β : Type} (f : α → Except String β)
    (ev : α → Event) (xs : List α) (t : List Event) (rs : List β)
    (da : α) (db : β) (h : pool_map_traced f ev xs = (t, Except.ok rs)) :
    ∀ i < xs.length, f (xs.getD i da) = Except.ok (rs.getD i db) := by
  induction xs generalizing t rs with
  | nil => intro i hi; simp at hi
  | cons x rest ih =>
    intro i hi
    rcases hfx : f x with e | b
    · simp [pool_map_traced, hfx] at h
    · rcases hrec : pool_map_traced f ev rest with ⟨t2, r2⟩
      cases r2 with
      | error e => simp [pool_map_traced, hfx, hrec] at h
      | ok bs =>
        simp [pool_map_traced, hfx, hrec] at h
        cases i with
        | zero => simp [← h.2, hfx]
        | succ n =>
          simp only [← h.2, List.getD_cons_succ]
          exact ih t2 bs (by simp [hrec]) n (by simpa using hi)

theorem pool_map_traced_trace_mem {α β : Type} (f : α → Except String β)
    (ev : α → Event) (xs : List α) :
    ∀ x ∈ (pool_map_traced f ev xs).1, ∃ a ∈ xs, x = ev a := by
  induction xs with
  | nil => intro x hx; simp [pool_map_traced] at hx
  | cons a rest ih =>
    intro x hx
    rcases hfa : f a with e | b
    · simp [pool_map_traced, hfa] at hx
      exact ⟨a, by simp, hx⟩
    · rcases hrec : pool_map_traced f ev rest with ⟨t2, r2⟩
      simp [pool_map_traced, hfa, hrec] at hx
      rcases hx with rfl | hx
      · exact ⟨a, by simp, rfl⟩
      · rcases ih x (by simp [hrec, hx]) with ⟨a2, ha2, rfl⟩
        exact ⟨a2, by simp [ha2], rfl⟩

theorem analyze_depth_distribution_ok (env : Env) (i : Nat) (f : IntermediateFiles)
    (r : String) (cs : ChromSizes) (q : Nat × Int)
    (h : analyze_depth_distribution env (i, f, r, cs) = Except.ok q) :
    q.1 = i ∧ ∃ x, env.calculate_bias_distribution_mpileup f.mpileup_out r
      f.strand_bias_distribution = Except.ok (x, q.2) := by
  rcases h1 : env.run_mpileup f.merged_bam r f.mpileup_out with e | u
  · simp [analyze_depth_distribution, h1, bind, Except.bind, pure, Except.pure, Functor.map, Except.map] at h
  rcases h2 : env.calculate_bias_distribution_mpileup f.mpileup_out r
      f.strand_bias_distribution with e | bias
  · simp [analyze_depth_distribution, h1, h2, bind, Except.bind, pure, Except.pure, Functor.map, Except.map] at h
  rcases h3 : env.get_mpileup_depths f.merged_bam r f.depth_bedgraph with e | u2
  · simp [analyze_depth_distribution, h1, h2, h3, bind, Except.bind, pure, Except.pure, Functor.map, Except.map] at h
  rcases h4 : env.calculate_depth_distribution_mpileup f.mpileup_out
      f.depth_distribution with e | ms
  · simp [analyze_depth_distribution, h1, h2, h3, h4, bind, Except.bind, pure, Except.pure, Functor.map, Except.map] at h
  rcases h5 : env.filter_regions_by_depth_mpileup f.mpileup_out cs ms.1 ms.2
      f.filtered_sites with e | u3
  · simp [analyze_depth_distribution, h1, h2, h3, h4, h5, bind, Except.bind, pure, Except.pure, Functor.map, Except.map] at h
  simp [analyze_depth_distribution, h1, h2, h3, h4, h5, bind, Except.bind, pure, Except.pure, Functor.map, Except.map] at h
  exact ⟨by simp [← h], ⟨bias.1, by rw [← h]⟩⟩

theorem ad_args_length (samples : List Sample) (r : String) (cs : ChromSizes) :
    (ad_args samples r cs).length = samples.length := by
  simp [ad_args]

theorem ad_args_getD (samples : List Sample) (r : String) (cs : ChromSizes)
    (i : Nat) (hi : i < samples.length) :
    (ad_args samples r cs).getD i default =
      (i, (samples.getD i default).intermediate_files, r, cs) := by
  have hlen : i < (ad_args samples r cs).length := by
    rw [ad_args_length]; exact hi
  rw [List.getD_eq_getElem _ _ hlen, List.getD_eq_getElem _ _ hi]
  simp [ad_args, List.getElem_zip]

theorem align_events_length (r : String) (p : Nat) (s : Sample) :
    (align_events r p s).length = s.fastqs.length := by
  simp [align_events]

theorem align_events_getD (r : String) (p : Nat) (s : Sample) (i : Nat)
    (hi : i < s.fastqs.length) :
    (align_events r p s).getD i default =
      (if (s.fastqs.getD i []).length = 2 then
        Event.align ((s.fastqs.getD i []).getD 0 "") r (s.sams.getD i "")
          (some ((s.fastqs.getD i []).getD 1 "")) p
      else
        Event.align ((s.fastqs.getD i []).getD 0 "") r (s.sams.getD i "") none p) := by
  have hlen : i < (align_events r p s).length := by
    rw [align_events_length]; exact hi
  rw [List.getD_eq_getElem _ _ hlen, List.getD_eq_getElem _ _ hi]
  simp [align_events]

theorem align_events_mem (r : String) (p : Nat) (s : Sample) :
    ∀ x ∈ align_events r p s, ∃ f1 sam f2, x = Event.align f1 r sam f2 p := by
  intro x hx
  rcases List.mem_map.mp hx with ⟨q, hq, rfl⟩
  by_cases hlen : q.2.length = 2
  · exact ⟨q.2.getD 0 "", s.sams.getD q.1 "", some (q.2.getD 1 ""), by simp [hlen]⟩
  · exact ⟨q.2.getD 0 "", s.sams.getD q.1 "", none, by simp [hlen]⟩

theorem ri_args_assign_strand_bias (results : List (Nat × Int))
    (samples : List Sample) (repeats : List RepeatRegion) :
    ri_args (assign_strand_bias results samples) repeats = ri_args samples repeats := by
  exact assign_strand_bias_map _ _ _ (fun s v => rfl)

theorem run_pipeline_not_indexed (env : Env) (r fq c dir : String) (p : Nat)
    (ex : Option String) (h : env.check_reference_indices r = false) :
    run_pipeline env r fq c dir p ex =
      ([Event.checkReferenceIndices r,
        Event.stderrWrite "Reference assembly not indexed. Run \"muver index_reference\".\n",
        Event.exitCall], Outcome.exited) := by
  simp [run_pipeline, h]

theorem run_pipeline_completed_pools (env : Env) (r fq c dir : String) (p : Nat)
    (ex : Option String)
    (h : (run_pipeline env r fq c dir p ex).2 = Outcome.completed) :
    env.check_reference_indices r = true ∧
    ∃ tm1 r1 tm2 rs tm3 r3,
      pool_map_traced (process_sams env) (fun a => Event.processSamsTask a.1)
        (ps_args (env.read_samples_from_text fq (some dir)) r)
        = (tm1, Except.ok r1) ∧
      pool_map_traced (analyze_depth_distribution env)
        (fun a => Event.analyzeDepthTask a.1)
        (ad_args (env.read_samples_from_text fq (some dir)) r
          (env.read_chrom_sizes r))
        = (tm2, Except.ok rs) ∧
      pool_map_traced (characterize_repeat_indel_rates env)
        (fun a => Event.repeatIndelTask a.1.repeat_indel_fits)
        (ri_args (assign_strand_bias rs (env.read_samples_from_text fq (some dir)))
          (env.read_repeats ((splitext r).1 ++ ".repeats")))
        = (tm3, Except.ok r3) := by
  cases hidx : env.check_reference_indices r with
  | false => rw [run_pipeline_not_indexed env r fq c dir p ex hidx] at h; simp at h
  | true =>
    refine ⟨rfl, ?_⟩
    rcases hp1 : pool_map_traced (process_sams env)
        (fun a => Event.processSamsTask a.1)
        (ps_args (env.read_samples_from_text fq (some dir)) r) with ⟨tm1, r1⟩
    cases r1 with
    | error e => simp [run_pipeline, hidx, hp1] at h
    | ok r1 =>
      rcases hp2 : pool_map_traced (analyze_depth_distribution env)
          (fun a => Event.analyzeDepthTask a.1)
          (ad_args (env.read_samples_from_text fq (some dir)) r
            (env.read_chrom_sizes r)) with ⟨tm2, r2⟩
      cases r2 with
      | error e => simp [run_pipeline, hidx, hp1, hp2] at h
      | ok rs =>
        rcases hp3 : pool_map_traced (characterize_repeat_indel_rates env)
            (fun a => Event.repeatIndelTask a.1.repeat_indel_fits)
            (ri_args (assign_strand_bias rs (env.read_samples_from_text fq (some dir)))
              (env.read_repeats ((splitext r).1 ++ ".repeats"))) with ⟨tm3, r3⟩
        cases r3 with
        | error e => simp [run_pipeline, hidx, hp1, hp2, hp3] at h
        | ok r3 =>
          exact ⟨tm1, r1, tm2, rs, tm3, r3, rfl, rfl, hp3⟩

theorem run_pipeline_trace_eq (env : Env) (r fq c dir : String) (p : Nat)
    (ex : Option String) (tm1 : List Event) (r1 : List Unit) (tm2 : List Event)
    (rs : List (Nat × Int)) (tm3 : List Event) (r3 : List Unit)
    (hidx : env.check_reference_indices r = true)
    (hp1 : pool_map_traced (process_sams env) (fun a => Event.processSamsTask a.1)
      (ps_args (env.read_samples_from_text fq (some dir)) r) = (tm1, Except.ok r1))
    (hp2 : pool_map_traced (analyze_depth_distribution env)
      (fun a => Event.analyzeDepthTask a.1)
      (ad_args (env.read_samples_from_text fq (some dir)) r (env.read_chrom_sizes r))
      = (tm2, Except.ok rs))
    (hp3 : pool_map_traced (characterize_repeat_indel_rates env)
      (fun a => Event.repeatIndelTask a.1.repeat_indel_fits)
      (ri_args (assign_strand_bias rs (env.read_samples_from_text fq (some dir)))
        (env.read_repeats ((splitext r).1 ++ ".repeats"))) = (tm3, Except.ok r3)) :
    run_pipeline env r fq c dir p ex =
      ([Event.checkReferenceIndices r,
        Event.generateExperimentDirectory dir,
        Event.readSamplesFromText fq (some dir)]
       ++ (env.read_samples_from_text fq (some dir)).map
            (fun s => Event.generateIntermediateFiles s.sample_name)
       ++ ((env.read_samples_from_text fq (some dir)).map (align_events r p)).flatten
       ++ tm1
       ++ [Event.runHaplotypeCaller
            ((env.read_samples_from_text fq (some dir)).map (fun s => s.merged_bam)) r
            (joinPath (joinPath dir "gatk_output") "haplotype_caller_output.vcf")
            (joinPath (joinPath dir "logs") "haplotype_caller.log") p,
          Event.readChromSizes r]
       ++ tm2
       ++ rs.map (fun iv => Event.assignStrandBias iv.1 iv.2)
       ++ [Event.readRepeats ((splitext r).1 ++ ".repeats")]
       ++ tm3
       ++ (assign_repeat_fits env
            (assign_strand_bias rs (env.read_samples_from_text fq (some dir)))).map
            (fun s => Event.readFitsAssign s.repeat_indel_fits)
       ++ [Event.buildVariantList
            (joinPath (joinPath dir "gatk_output") "haplotype_caller_output.vcf")
            (assign_repeat_fits env
              (assign_strand_bias rs (env.read_samples_from_text fq (some dir)))) ex
            ((splitext r).1 ++ ".repeats")
            (((env.read_samples_from_text fq (some dir)).findIdx?
                (fun x => x.sample_name == c)).map
              (fun i => (assign_repeat_fits env
                (assign_strand_bias rs (env.read_samples_from_text fq (some dir)))).getD
                  i default))
            (env.read_chrom_sizes r),
          Event.writeOutputTable (joinPath (joinPath dir "output") "mutations.txt"),
          Event.writeOutputVcf (joinPath (joinPath dir "output") "mutations.vcf")]
       ++ (assign_repeat_fits env
            (assign_strand_bias rs (env.read_samples_from_text fq (some dir)))).map
            (fun s => Event.clearTempFileIndices s.sample_name)
       ++ [Event.writeSampleInfoFile
            (assign_repeat_fits env
              (assign_strand_bias rs (env.read_samples_from_text fq (some dir))))
            (joinPath dir "sample_info.txt")],
       Outcome.completed) := by
  simp [run_pipeline, hidx, hp1, hp2, hp3]

/-- C2: counterexample to the claim as stated.  On an environment whose
reference assembly is not indexed (the repeat cache is present, so the
unrelated NameError crash branch is not taken), the entry point call_variants
does not abort with a directive to run the indexing step first: it performs
the full run, unconditionally creating the reference indices itself, printing
nothing to stderr and never calling exit. -/
theorem C2_counterexample :
    env_no_index_cache.check_reference_indices "ref.fa" = false ∧
    call_variants env_no_index_cache "ref.fa" "ctl" "man.txt" "in.vcf" "out"
        none none =
      ([Event.readSamplesFromText "man.txt" none,
        Event.createReferenceIndices "ref.fa",
        Event.readChromSizes "ref.fa",
        Event.buildVariantList "in.vcf" [sample_ctl, sample_case] none "ref.repeats"
          (some sample_ctl) [("chrI", 100)],
        Event.writeOutputTable "out.variants.txt",
        Event.writeOutputVcf "out.variants.vcf"], Outcome.completed) ∧
    (call_variants env_no_index_cache "ref.fa" "ctl" "man.txt" "in.vcf" "out"
      none none).1.all (fun e => !(e == Event.exitCall)) = true := by
  refine ⟨rfl, by decide, by decide⟩

/-- C2 amended: only run_pipeline aborts before any processing, with the
stderr directive to run muver index_reference, when the reference assembly
lacks its indices.  call_variants never consults the index check, never
aborts with a directive and never writes to stderr: it unconditionally
invokes the index creation itself as its second action and proceeds,
completing through both output writes whenever the repeat cache file is
present (when the cache is absent it later crashes with an unrelated
NameError, still without any directive). -/
theorem C2_amended_abort_only_in_run_pipeline :
    (∀ (env : Env) (r fq c dir : String) (p : Nat) (ex : Option String),
      env.check_reference_indices r = false →
      run_pipeline env r fq c dir p ex =
        ([Event.checkReferenceIndices r,
          Event.stderrWrite
            "Reference assembly not indexed. Run \"muver index_reference\".\n",
          Event.exitCall], Outcome.exited)) ∧
    (∀ (env : Env) (r c man vcf hdr : String) (cs ex : Option String),
      Event.createReferenceIndices r ∈ (call_variants env r c man vcf hdr cs ex).1 ∧
      Event.exitCall ∉ (call_variants env r c man vcf hdr cs ex).1 ∧
      (∀ m, Event.stderrWrite m ∉ (call_variants env r c man vcf hdr cs ex).1) ∧
      (env.path_exists ((splitext r).1 ++ ".repeats") = true →
        (call_variants env r c man vcf hdr cs ex).2 = Outcome.completed ∧
        ∃ pre, (call_variants env r c man vcf hdr cs ex).1 =
          pre ++ [Event.writeOutputTable (hdr ++ ".variants.txt"),
                  Event.writeOutputVcf (hdr ++ ".variants.vcf")])) := by
  constructor
  · intro env r fq c dir p ex h
    exact run_pipeline_not_indexed env r fq c dir p ex h
  · intro env r c man vcf hdr cs ex
    by_cases hpe : env.path_exists ((splitext r).1 ++ ".repeats") = true
    · refine ⟨by cases cs <;> simp [call_variants, hpe],
        by cases cs <;> simp [call_variants, hpe],
        fun m => by cases cs <;> simp [call_variants, hpe],
        fun _ => ⟨by cases cs <;> simp [call_variants, hpe], ?_⟩⟩
      refine ⟨[Event.readSamplesFromText man none,
        Event.createReferenceIndices r,
        (match cs with
         | some f => Event.readChromSizesFromFile f
         | none => Event.readChromSizes r),
        Event.buildVariantList vcf (env.read_samples_from_text man none) ex
          ((splitext r).1 ++ ".repeats")
          ((env.read_samples_from_text man none).find?
            (fun x => x.sample_name == c))
          (match cs with
           | some f => env.read_chrom_sizes_from_file f
           | none => env.read_chrom_sizes r)], ?_⟩
      cases cs <;> simp [call_variants, hpe]
    · refine ⟨by simp [call_variants, hpe], by simp [call_variants, hpe],
        fun m => by simp [call_variants, hpe], fun hcontra => absurd hcontra hpe⟩

/-- C2 witness: the amended abort behavior of run_pipeline evaluated on a
concrete unindexed environment. -/
theorem C2_witness :
    env_no_index.check_reference_indices "ref.fa" = false ∧
    run_pipeline env_no_index "ref.fa" "fq.txt" "ctl" "exp" 1 none =
      ([Event.checkReferenceIndices "ref.fa",
        Event.stderrWrite
          "Reference assembly not indexed. Run \"muver index_reference\".\n",
        Event.exitCall], Outcome.exited) :=
  ⟨by decide,
   C2_amended_abort_only_in_run_pipeline.1 env_no_index "ref.fa" "fq.txt" "ctl"
     "exp" 1 none (by decide)⟩

/-- C3: counterexample to the claim as stated.  With a manifest whose samples
are named ctl and case (and the repeat cache present, so the unrelated
NameError crash branch is not taken), asking for control sample nope does not
abort the run: call_variants completes the whole pipeline and constructs the
variant list with control None. -/
theorem C3_counterexample :
    (env_cache.read_samples_from_text "man.txt" none).all
      (fun s => !(s.sample_name == "nope")) = true ∧
    call_variants env_cache "ref.fa" "nope" "man.txt" "in.vcf" "out" none none =
      ([Event.readSamplesFromText "man.txt" none,
        Event.createReferenceIndices "ref.fa",
        Event.readChromSizes "ref.fa",
        Event.buildVariantList "in.vcf" [sample_ctl, sample_case] none "ref.repeats"
          none [("chrI", 100)],
        Event.writeOutputTable "out.variants.txt",
        Event.writeOutputVcf "out.variants.vcf"], Outcome.completed) ∧
    (call_variants env_cache "ref.fa" "nope" "man.txt" "in.vcf" "out" none
      none).1.all (fun e => !(e == Event.exitCall)) = true := by
  refine ⟨by decide, by decide, by decide⟩

/-- C3 amended: when the named control sample does not appear in the sample
manifest, both entry points fall back to a control of None (Python
next(..., None)) and proceed rather than aborting: call_variants never calls
exit, and whenever the run reaches the variant list construction (the repeat
cache present for call_variants, a completed run for run_pipeline) the
VariantList receives control None. -/
theorem C3_amended_missing_control_proceeds_with_none :
    (∀ (env : Env) (r c man vcf hdr : String) (cs ex : Option String),
      (∀ s ∈ env.read_samples_from_text man none, s.sample_name ≠ c) →
      Event.exitCall ∉ (call_variants env r c man vcf hdr cs ex).1 ∧
      (env.path_exists ((splitext r).1 ++ ".repeats") = true →
        ∃ sizes, Event.buildVariantList vcf (env.read_samples_from_text man none)
          ex ((splitext r).1 ++ ".repeats") none sizes ∈
            (call_variants env r c man vcf hdr cs ex).1)) ∧
    (∀ (env : Env) (r fq c dir : String) (p : Nat) (ex : Option String),
      (∀ s ∈ env.read_samples_from_text fq (some dir), s.sample_name ≠ c) →
      (run_pipeline env r fq c dir p ex).2 = Outcome.completed →
      ∃ vcf ss rf sizes,
        Event.buildVariantList vcf ss ex rf none sizes ∈
          (run_pipeline env r fq c dir p ex).1) := by
  constructor
  · intro env r c man vcf hdr cs ex h
    have hfind : (env.read_samples_from_text man none).find?
        (fun x => x.sample_name == c) = none := by
      apply List.find?_eq_none.mpr
      intro s hs
      simpa using h s hs
    constructor
    · by_cases hpe : env.path_exists ((splitext r).1 ++ ".repeats") = true <;>
        cases cs <;> simp [call_variants, hpe]
    · intro hpe
      refine ⟨(match cs with
        | some f => env.read_chrom_sizes_from_file f
        | none => env.read_chrom_sizes r), ?_⟩
      cases cs <;> simp [call_variants, hpe, hfind]
  · intro env r fq c dir p ex h hdone
    have hfind : (env.read_samples_from_text fq (some dir)).findIdx?
        (fun x => x.sample_name == c) = none := by
      apply List.findIdx?_eq_none_iff.mpr
      intro s hs
      simpa using h s hs
    obtain ⟨hidx, tm1, r1, tm2, rs, tm3, r3, hp1, hp2, hp3⟩ :=
      run_pipeline_completed_pools env r fq c dir p ex hdone
    rw [run_pipeline_trace_eq env r fq c dir p ex tm1 r1 tm2 rs tm3 r3 hidx hp1 hp2 hp3]
    refine ⟨joinPath (joinPath dir "gatk_output") "haplotype_caller_output.vcf",
      assign_repeat_fits env
        (assign_strand_bias rs (env.read_samples_from_text fq (some dir))),
      (splitext r).1 ++ ".repeats", env.read_chrom_sizes r, ?_⟩
    simp [hfind]

/-- C3 witness: the amended fall-back behavior evaluated on a concrete run
whose control name nope matches no sample. -/
theorem C3_witness :
    (run_pipeline env_ok "ref.fa" "fq.txt" "nope" "exp" 1 none).2 =
      Outcome.completed ∧
    (∃ vcf ss rf sizes,
      Event.buildVariantList vcf ss none rf none sizes ∈
        (run_pipeline env_ok "ref.fa" "fq.txt" "nope" "exp" 1 none).1) :=
  ⟨by decide,
   C3_amended_missing_control_proceeds_with_none.2 env_ok "ref.fa" "fq.txt" "nope"
     "exp" 1 none (by decide) (by decide)⟩

/-- C4: counterexample to the claim as stated.  A concrete run_pipeline run
that completes writes its tabular output to exp/output/mutations.txt and its
structured output to exp/output/mutations.vcf, neither of which ends in
.variants.txt or .variants.vcf; these are the only table and VCF writes of
the run. -/
theorem C4_counterexample :
    (run_pipeline env_ok "ref.fa" "fq.txt" "ctl" "exp" 1 none).2 =
      Outcome.completed ∧
    (run_pipeline env_ok "ref.fa" "fq.txt" "ctl" "exp" 1 none).1.countP
      is_write_table = 1 ∧
    (run_pipeline env_ok "ref.fa" "fq.txt" "ctl" "exp" 1 none).1.countP
      is_write_vcf = 1 ∧
    Event.writeOutputTable "exp/output/mutations.txt" ∈
      (run_pipeline env_ok "ref.fa" "fq.txt" "ctl" "exp" 1 none).1 ∧
    Event.writeOutputVcf "exp/output/mutations.vcf" ∈
      (run_pipeline env_ok "ref.fa" "fq.txt" "ctl" "exp" 1 none).1 ∧
    strEndsWith "exp/output/mutations.txt" ".variants.txt" = false ∧
    strEndsWith "exp/output/mutations.vcf" ".variants.vcf" = false := by
  refine ⟨by decide, by decide, by decide, by decide, by decide, by decide, by decide⟩

/-- C4 amended: every call_variants run that completes (equivalently, does
not crash at the unimported create_repeat_file call) ends with the two output
writes to files named by appending .variants.txt and .variants.vcf to the
output header; run_pipeline instead writes its table to
experiment_directory/output/mutations.txt and its structured output to
experiment_directory/output/mutations.vcf. -/
theorem C4_amended_output_names :
    (∀ (env : Env) (r c man vcf hdr : String) (cs ex : Option String),
      (call_variants env r c man vcf hdr cs ex).2 = Outcome.completed →
      ∃ pre, (call_variants env r c man vcf hdr cs ex).1 =
        pre ++ [Event.writeOutputTable (hdr ++ ".variants.txt"),
                Event.writeOutputVcf (hdr ++ ".variants.vcf")]) ∧
    (∀ (env : Env) (r fq c dir : String) (p : Nat) (ex : Option String),
      (run_pipeline env r fq c dir p ex).2 = Outcome.completed →
      Event.writeOutputTable (joinPath (joinPath dir "output") "mutations.txt") ∈
        (run_pipeline env r fq c dir p ex).1 ∧
      Event.writeOutputVcf (joinPath (joinPath dir "output") "mutations.vcf") ∈
        (run_pipeline env r fq c dir p ex).1) := by
  constructor
  · intro env r c man vcf hdr cs ex hdone
    by_cases hpe : env.path_exists ((splitext r).1 ++ ".repeats") = true
    · refine ⟨[Event.readSamplesFromText man none,
        Event.createReferenceIndices r,
        (match cs with
         | some f => Event.readChromSizesFromFile f
         | none => Event.readChromSizes r),
        Event.buildVariantList vcf (env.read_samples_from_text man none) ex
          ((splitext r).1 ++ ".repeats")
          ((env.read_samples_from_text man none).find?
            (fun x => x.sample_name == c))
          (match cs with
           | some f => env.read_chrom_sizes_from_file f
           | none => env.read_chrom_sizes r)], ?_⟩
      cases cs <;> simp [call_variants, hpe]
    · exfalso
      simp [call_variants, hpe] at hdone
  · intro env r fq c dir p ex hdone
    obtain ⟨hidx, tm1, r1, tm2, rs, tm3, r3, hp1, hp2, hp3⟩ :=
      run_pipeline_completed_pools env r fq c dir p ex hdone
    rw [run_pipeline_trace_eq env r fq c dir p ex tm1 r1 tm2 rs tm3 r3 hidx hp1 hp2 hp3]
    constructor <;> simp

/-- C4 witness: the amended output naming evaluated on a concrete completed
run of each entry point. -/
theorem C4_witness :
    (call_variants env_cache "ref.fa" "ctl" "man.txt" "in.vcf" "out" none
        none).2 = Outcome.completed ∧
    (∃ pre, (call_variants env_cache "ref.fa" "ctl" "man.txt" "in.vcf" "out" none
        none).1 =
      pre ++ [Event.writeOutputTable ("out" ++ ".variants.txt"),
              Event.writeOutputVcf ("out" ++ ".variants.vcf")]) ∧
    (run_pipeline env_ok "ref.fa" "fq.txt" "ctl" "exp" 1 none).2 =
      Outcome.completed ∧
    Event.writeOutputTable (joinPath (joinPath "exp" "output") "mutations.txt") ∈
      (run_pipeline env_ok "ref.fa" "fq.txt" "ctl" "exp" 1 none).1 ∧
    Event.writeOutputVcf (joinPath (joinPath "exp" "output") "mutations.vcf") ∈
      (run_pipeline env_ok "ref.fa" "fq.txt" "ctl" "exp" 1 none).1 :=
  ⟨by decide,
   C4_amended_output_names.1 env_cache "ref.fa" "ctl" "man.txt" "in.vcf" "out"
     none none (by decide),
   by decide,
   (C4_amended_output_names.2 env_ok "ref.fa" "fq.txt" "ctl" "exp" 1 none
     (by decide)).1,
   (C4_amended_output_names.2 env_ok "ref.fa" "fq.txt" "ctl" "exp" 1 none
     (by decide)).2⟩

/-- C8: counterexample to the claim as stated.  When the repeat cache file is
absent, a call_variants run with a chromosome-sizes file supplied crashes at
the unimported create_repeat_file call before any chromosome-size code runs:
the supplied file is never read, no sizes are derived from the reference, and
the rest of the classification never happens. -/
theorem C8_counterexample :
    env_ok.path_exists "ref.repeats" = false ∧
    call_variants env_ok "ref.fa" "ctl" "man.txt" "in.vcf" "out"
        (some "sizes.txt") none =
      ([Event.readSamplesFromText "man.txt" none,
        Event.createReferenceIndices "ref.fa"],
       Outcome.failed "NameError: name create_repeat_file is not defined") := by
  refine ⟨rfl, by decide⟩

/-- C8 amended: in every call_variants run where the repeat cache file is
present (otherwise the run crashes at the unimported create_repeat_file call
before reaching the chromosome-size code), the chromosome-size table is
optional: when a sizes file is supplied it is the one read and its table is
the one handed to the variant list, when it is omitted the sizes are derived
from the reference assembly instead, and whenever the two sources agree the
two runs differ in nothing but that single reading event. -/
theorem C8_chrom_sizes_optional :
    ∀ (env : Env) (r c man vcf hdr szf : String) (ex : Option String),
      env.path_exists ((splitext r).1 ++ ".repeats") = true →
      (Event.readChromSizesFromFile szf ∈
         (call_variants env r c man vcf hdr (some szf) ex).1 ∧
       Event.readChromSizes r ∉
         (call_variants env r c man vcf hdr (some szf) ex).1 ∧
       Event.buildVariantList vcf (env.read_samples_from_text man none) ex
         ((splitext r).1 ++ ".repeats")
         ((env.read_samples_from_text man none).find? (fun x => x.sample_name == c))
         (env.read_chrom_sizes_from_file szf) ∈
         (call_variants env r c man vcf hdr (some szf) ex).1) ∧
      (Event.readChromSizes r ∈ (call_variants env r c man vcf hdr none ex).1 ∧
       (∀ f, Event.readChromSizesFromFile f ∉
         (call_variants env r c man vcf hdr none ex).1) ∧
       Event.buildVariantList vcf (env.read_samples_from_text man none) ex
         ((splitext r).1 ++ ".repeats")
         ((env.read_samples_from_text man none).find? (fun x => x.sample_name == c))
         (env.read_chrom_sizes r) ∈
         (call_variants env r c man vcf hdr none ex).1) ∧
      (env.read_chrom_sizes_from_file szf = env.read_chrom_sizes r →
       ∃ pre post,
         (call_variants env r c man vcf hdr (some szf) ex).1 =
           pre ++ Event.readChromSizesFromFile szf :: post ∧
         (call_variants env r c man vcf hdr none ex).1 =
           pre ++ Event.readChromSizes r :: post) := by
  intro env r c man vcf hdr szf ex hpe
  refine ⟨⟨?_, ?_, ?_⟩, ⟨?_, ?_, ?_⟩, ?_⟩
  · simp [call_variants, hpe]
  · simp [call_variants, hpe]
  · simp [call_variants, hpe]
  · simp [call_variants, hpe]
  · intro f
    simp [call_variants, hpe]
  · simp [call_variants, hpe]
  · intro h
    refine ⟨[Event.readSamplesFromText man none,
        Event.createReferenceIndices r],
      [Event.buildVariantList vcf (env.read_samples_from_text man none) ex
         ((splitext r).1 ++ ".repeats")
         ((env.read_samples_from_text man none).find? (fun x => x.sample_name == c))
         (env.read_chrom_sizes r),
       Event.writeOutputTable (hdr ++ ".variants.txt"),
       Event.writeOutputVcf (hdr ++ ".variants.vcf")], ?_, ?_⟩ <;>
      simp [call_variants, hpe, h]

/-- C8 witness: the equal-sizes agreement evaluated on a concrete environment
whose repeat cache is present and whose chromosome-size file and reference
report the same table. -/
theorem C8_witness :
    env_cache.path_exists "ref.repeats" = true ∧
    env_cache.read_chrom_sizes_from_file "sizes.txt" =
      env_cache.read_chrom_sizes "ref.fa" ∧
    (∃ pre post,
      (call_variants env_cache "ref.fa" "ctl" "man.txt" "in.vcf" "out"
          (some "sizes.txt") none).1 =
        pre ++ Event.readChromSizesFromFile "sizes.txt" :: post ∧
      (call_variants env_cache "ref.fa" "ctl" "man.txt" "in.vcf" "out" none
          none).1 =
        pre ++ Event.readChromSizes "ref.fa" :: post) :=
  ⟨by decide, by decide,
   (C8_chrom_sizes_optional env_cache "ref.fa" "ctl" "man.txt" "in.vcf" "out"
     "sizes.txt" none (by decide)).2.2 (by decide)⟩

theorem run_pipeline_front_segment (env : Env) (r fq c dir : String) (p : Nat)
    (ex : Option String) (hidx : env.check_reference_indices r = true) :
    ∃ rest, (run_pipeline env r fq c dir p ex).1 =
      [Event.checkReferenceIndices r, Event.generateExperimentDirectory dir,
       Event.readSamplesFromText fq (some dir)]
      ++ (env.read_samples_from_text fq (some dir)).map
           (fun s => Event.generateIntermediateFiles s.sample_name)
      ++ ((env.read_samples_from_text fq (some dir)).map (align_events r p)).flatten
      ++ rest := by
  rcases hp1 : pool_map_traced (process_sams env) (fun a => Event.processSamsTask a.1)
      (ps_args (env.read_samples_from_text fq (some dir)) r) with ⟨tm1, r1⟩
  cases r1 with
  | error e =>
    exact ⟨tm1, by simp [run_pipeline, hidx, hp1]⟩
  | ok r1 =>
    rcases hp2 : pool_map_traced (analyze_depth_distribution env)
        (fun a => Event.analyzeDepthTask a.1)
        (ad_args (env.read_samples_from_text fq (some dir)) r
          (env.read_chrom_sizes r)) with ⟨tm2, r2⟩
    cases r2 with
    | error e =>
      refine ⟨tm1 ++ [Event.runHaplotypeCaller
          ((env.read_samples_from_text fq (some dir)).map (fun s => s.merged_bam)) r
          (joinPath (joinPath dir "gatk_output") "haplotype_caller_output.vcf")
          (joinPath (joinPath dir "logs") "haplotype_caller.log") p,
        Event.readChromSizes r] ++ tm2, ?_⟩
      simp [run_pipeline, hidx, hp1, hp2]
    | ok rs =>
      rcases hp3 : pool_map_traced (characterize_repeat_indel_rates env)
          (fun a => Event.repeatIndelTask a.1.repeat_indel_fits)
          (ri_args (assign_strand_bias rs (env.read_samples_from_text fq (some dir)))
            (env.read_repeats ((splitext r).1 ++ ".repeats"))) with ⟨tm3, r3⟩
      cases r3 with
      | error e =>
        refine ⟨tm1 ++ [Event.runHaplotypeCaller
            ((env.read_samples_from_text fq (some dir)).map (fun s => s.merged_bam)) r
            (joinPath (joinPath dir "gatk_output") "haplotype_caller_output.vcf")
            (joinPath (joinPath dir "logs") "haplotype_caller.log") p,
          Event.readChromSizes r] ++ tm2
          ++ rs.map (fun iv => Event.assignStrandBias iv.1 iv.2)
          ++ [Event.readRepeats ((splitext r).1 ++ ".repeats")] ++ tm3, ?_⟩
        simp [run_pipeline, hidx, hp1, hp2, hp3]
      | ok r3 =>
        refine ⟨tm1 ++ [Event.runHaplotypeCaller
            ((env.read_samples_from_text fq (some dir)).map (fun s => s.merged_bam)) r
            (joinPath (joinPath dir "gatk_output") "haplotype_caller_output.vcf")
            (joinPath (joinPath dir "logs") "haplotype_caller.log") p,
          Event.readChromSizes r] ++ tm2
          ++ rs.map (fun iv => Event.assignStrandBias iv.1 iv.2)
          ++ [Event.readRepeats ((splitext r).1 ++ ".repeats")] ++ tm3
          ++ (assign_repeat_fits env
               (assign_strand_bias rs (env.read_samples_from_text fq (some dir)))).map
               (fun s => Event.readFitsAssign s.repeat_indel_fits)
          ++ [Event.buildVariantList
               (joinPath (joinPath dir "gatk_output") "haplotype_caller_output.vcf")
               (assign_repeat_fits env
                 (assign_strand_bias rs (env.read_samples_from_text fq (some dir)))) ex
               ((splitext r).1 ++ ".repeats")
               (((env.read_samples_from_text fq (some dir)).findIdx?
                   (fun x => x.sample_name == c)).map
                 (fun i => (assign_repeat_fits env
                   (assign_strand_bias rs
                     (env.read_samples_from_text fq (some dir)))).getD i default))
               (env.read_chrom_sizes r),
             Event.writeOutputTable (joinPath (joinPath dir "output") "mutations.txt"),
             Event.writeOutputVcf (joinPath (joinPath dir "output") "mutations.vcf")]
          ++ (assign_repeat_fits env
               (assign_strand_bias rs (env.read_samples_from_text fq (some dir)))).map
               (fun s => Event.clearTempFileIndices s.sample_name)
          ++ [Event.writeSampleInfoFile
               (assign_repeat_fits env
                 (assign_strand_bias rs (env.read_samples_from_text fq (some dir))))
               (joinPath dir "sample_info.txt")], ?_⟩
        simp [run_pipeline, hidx, hp1, hp2, hp3]

/-- C10: the alignment loop of run_pipeline runs right after the sample setup
events and issues exactly one bowtie2 call per FASTQ group of every sample in
order; a group of two files passes the second file as the mate, and any other
group (in particular a single-file group) passes its first file with mate
None, so single-end and paired-end inputs are both accepted. -/
theorem C10_alignment_loop :
    ∀ (env : Env) (r fq c dir : String) (p : Nat) (ex : Option String),
      env.check_reference_indices r = true →
      (∃ rest, (run_pipeline env r fq c dir p ex).1 =
        [Event.checkReferenceIndices r, Event.generateExperimentDirectory dir,
         Event.readSamplesFromText fq (some dir)]
        ++ (env.read_samples_from_text fq (some dir)).map
             (fun s => Event.generateIntermediateFiles s.sample_name)
        ++ ((env.read_samples_from_text fq (some dir)).map (align_events r p)).flatten
        ++ rest) ∧
      (∀ s, (align_events r p s).length = s.fastqs.length) ∧
      (∀ s, ∀ i < s.fastqs.length,
        ((s.fastqs.getD i []).length = 2 →
          (align_events r p s).getD i default =
            Event.align ((s.fastqs.getD i []).getD 0 "") r (s.sams.getD i "")
              (some ((s.fastqs.getD i []).getD 1 "")) p) ∧
        ((s.fastqs.getD i []).length ≠ 2 →
          (align_events r p s).getD i default =
            Event.align ((s.fastqs.getD i []).getD 0 "") r (s.sams.getD i "")
              none p)) := by
  intro env r fq c dir p ex hidx
  refine ⟨run_pipeline_front_segment env r fq c dir p ex hidx,
    fun s => align_events_length r p s, ?_⟩
  intro s i hi
  constructor
  · intro h2
    rw [align_events_getD r p s i hi, if_pos h2]
  · intro h2
    rw [align_events_getD r p s i hi, if_neg h2]

/-- C10 witness: the alignment payload facts evaluated on the concrete
environment, whose first sample has a paired-end group and whose second
sample has a single-end group. -/
theorem C10_witness :
    env_ok.check_reference_indices "ref.fa" = true ∧
    (∃ rest, (run_pipeline env_ok "ref.fa" "fq.txt" "ctl" "exp" 1 none).1 =
      [Event.checkReferenceIndices "ref.fa", Event.generateExperimentDirectory "exp",
       Event.readSamplesFromText "fq.txt" (some "exp")]
      ++ (env_ok.read_samples_from_text "fq.txt" (some "exp")).map
           (fun s => Event.generateIntermediateFiles s.sample_name)
      ++ ((env_ok.read_samples_from_text "fq.txt" (some "exp")).map
           (align_events "ref.fa" 1)).flatten
      ++ rest) :=
  ⟨by decide,
   (C10_alignment_loop env_ok "ref.fa" "fq.txt" "ctl" "exp" 1 none (by decide)).1⟩

/-- C9: every completed run_pipeline run ends by writing the sample info file
at experiment_directory/sample_info.txt, strictly after the variant table and
the VCF have been written and after every sample has had its temporary file
indices cleared. -/
theorem C9_sample_info_last :
    ∀ (env : Env) (r fq c dir : String) (p : Nat) (ex : Option String),
      (run_pipeline env r fq c dir p ex).2 = Outcome.completed →
      ∃ pre ss, (run_pipeline env r fq c dir p ex).1 =
        pre
        ++ [Event.writeOutputTable (joinPath (joinPath dir "output") "mutations.txt"),
            Event.writeOutputVcf (joinPath (joinPath dir "output") "mutations.vcf")]
        ++ ss.map (fun s => Event.clearTempFileIndices s.sample_name)
        ++ [Event.writeSampleInfoFile ss (joinPath dir "sample_info.txt")] := by
  intro env r fq c dir p ex hdone
  obtain ⟨hidx, tm1, r1, tm2, rs, tm3, r3, hp1, hp2, hp3⟩ :=
    run_pipeline_completed_pools env r fq c dir p ex hdone
  rw [run_pipeline_trace_eq env r fq c dir p ex tm1 r1 tm2 rs tm3 r3 hidx hp1 hp2 hp3]
  refine ⟨[Event.checkReferenceIndices r, Event.generateExperimentDirectory dir,
      Event.readSamplesFromText fq (some dir)]
    ++ (env.read_samples_from_text fq (some dir)).map
         (fun s => Event.generateIntermediateFiles s.sample_name)
    ++ ((env.read_samples_from_text fq (some dir)).map (align_events r p)).flatten
    ++ tm1
    ++ [Event.runHaplotypeCaller
         ((env.read_samples_from_text fq (some dir)).map (fun s => s.merged_bam)) r
         (joinPath (joinPath dir "gatk_output") "haplotype_caller_output.vcf")
         (joinPath (joinPath dir "logs") "haplotype_caller.log") p,
       Event.readChromSizes r]
    ++ tm2
    ++ rs.map (fun iv => Event.assignStrandBias iv.1 iv.2)
    ++ [Event.readRepeats ((splitext r).1 ++ ".repeats")]
    ++ tm3
    ++ (assign_repeat_fits env
         (assign_strand_bias rs (env.read_samples_from_text fq (some dir)))).map
         (fun s => Event.readFitsAssign s.repeat_indel_fits)
    ++ [Event.buildVariantList
         (joinPath (joinPath dir "gatk_output") "haplotype_caller_output.vcf")
         (assign_repeat_fits env
           (assign_strand_bias rs (env.read_samples_from_text fq (some dir)))) ex
         ((splitext r).1 ++ ".repeats")
         (((env.read_samples_from_text fq (some dir)).findIdx?
             (fun x => x.sample_name == c)).map
           (fun i => (assign_repeat_fits env
             (assign_strand_bias rs
               (env.read_samples_from_text fq (some dir)))).getD i default))
         (env.read_chrom_sizes r)],
    assign_repeat_fits env
      (assign_strand_bias rs (env.read_samples_from_text fq (some dir))), ?_⟩
  simp

/-- C9 witness: the terminal write order evaluated on a concrete completed
run. -/
theorem C9_witness :
    (run_pipeline env_ok "ref.fa" "fq.txt" "ctl" "exp" 1 none).2 =
      Outcome.completed ∧
    (∃ pre ss, (run_pipeline env_ok "ref.fa" "fq.txt" "ctl" "exp" 1 none).1 =
      pre
      ++ [Event.writeOutputTable (joinPath (joinPath "exp" "output") "mutations.txt"),
          Event.writeOutputVcf (joinPath (joinPath "exp" "output") "mutations.vcf")]
      ++ ss.map (fun s => Event.clearTempFileIndices s.sample_name)
      ++ [Event.writeSampleInfoFile ss (joinPath "exp" "sample_info.txt")]) :=
  ⟨by decide,
   C9_sample_info_last env_ok "ref.fa" "fq.txt" "ctl" "exp" 1 none (by decide)⟩

theorem pipeline_prefix_mem (r fq dir : String) (p : Nat) (samples : List Sample) :
    ∀ x ∈ ([Event.checkReferenceIndices r, Event.generateExperimentDirectory dir,
             Event.readSamplesFromText fq (some dir)]
            ++ samples.map (fun s => Event.generateIntermediateFiles s.sample_name)
            ++ (samples.map (align_events r p)).flatten),
      is_create_repeat_file x = false ∧ is_output_write x = false := by
  intro x hx
  rcases List.mem_append.mp hx with hx | hfl
  · rcases List.mem_append.mp hx with hx3 | hmap
    · simp only [List.mem_cons, List.mem_singleton] at hx3
      rcases hx3 with rfl | rfl | hx3
      · exact ⟨rfl, rfl⟩
      · exact ⟨rfl, rfl⟩
      · simp only [List.not_mem_nil, or_false] at hx3
        subst hx3
        exact ⟨rfl, rfl⟩
    · rcases List.mem_map.mp hmap with ⟨s, hs, rfl⟩
      exact ⟨rfl, rfl⟩
  · rcases List.mem_flatten.mp hfl with ⟨l, hl, hxl⟩
    rcases List.mem_map.mp hl with ⟨s, hs, rfl⟩
    rcases align_events_mem r p s x hxl with ⟨f1, sam, f2, rfl⟩
    exact ⟨rfl, rfl⟩

theorem tm_kinds {α β : Type} (f : α → Except String β) (ev : α → Event)
    (hev : ∀ a, is_create_repeat_file (ev a) = false ∧ is_output_write (ev a) = false)
    (xs : List α) (t : List Event) (es : Except String (List β))
    (h : pool_map_traced f ev xs = (t, es)) :
    ∀ x ∈ t, is_create_repeat_file x = false ∧ is_output_write x = false := by
  intro x hx
  have hmem := pool_map_traced_trace_mem f ev xs x (by rw [h]; exact hx)
  rcases hmem with ⟨a, ha, rfl⟩
  exact hev a

theorem run_pipeline_event_kinds (env : Env) (r fq c dir : String) (p : Nat)
    (ex : Option String) :
    ∀ x ∈ (run_pipeline env r fq c dir p ex).1,
      is_create_repeat_file x = false ∧
      (is_output_write x = true →
        (run_pipeline env r fq c dir p ex).2 = Outcome.completed) := by
  cases hidx : env.check_reference_indices r with
  | false =>
    intro x hx
    rw [run_pipeline_not_indexed env r fq c dir p ex hidx] at hx ⊢
    simp only [List.mem_cons, List.not_mem_nil, or_false] at hx
    rcases hx with rfl | rfl | rfl <;>
      exact ⟨rfl, fun hw => by simp [is_output_write] at hw⟩
  | true =>
    rcases hp1 : pool_map_traced (process_sams env)
        (fun a => Event.processSamsTask a.1)
        (ps_args (env.read_samples_from_text fq (some dir)) r) with ⟨tm1, r1⟩
    have htm1 := tm_kinds (process_sams env) (fun a => Event.processSamsTask a.1)
      (fun a => ⟨rfl, rfl⟩) _ _ _ hp1
    cases r1 with
    | error e =>
      have heq : run_pipeline env r fq c dir p ex =
          (([Event.checkReferenceIndices r, Event.generateExperimentDirectory dir,
             Event.readSamplesFromText fq (some dir)]
            ++ (env.read_samples_from_text fq (some dir)).map
                 (fun s => Event.generateIntermediateFiles s.sample_name)
            ++ ((env.read_samples_from_text fq (some dir)).map
                 (align_events r p)).flatten)
           ++ tm1, Outcome.failed e) := by
        simp [run_pipeline, hidx, hp1]
      intro x hx
      rw [heq] at hx ⊢
      have hk : is_create_repeat_file x = false ∧ is_output_write x = false := by
        rcases List.mem_append.mp hx with hx | h1
        · exact pipeline_prefix_mem r fq dir p _ x hx
        · exact htm1 x h1
      refine ⟨hk.1, ?_⟩
      intro hw
      rw [hk.2] at hw
      simp at hw
    | ok r1 =>
      rcases hp2 : pool_map_traced (analyze_depth_distribution env)
          (fun a => Event.analyzeDepthTask a.1)
          (ad_args (env.read_samples_from_text fq (some dir)) r
            (env.read_chrom_sizes r)) with ⟨tm2, r2⟩
      have htm2 := tm_kinds (analyze_depth_distribution env)
        (fun a => Event.analyzeDepthTask a.1) (fun a => ⟨rfl, rfl⟩) _ _ _ hp2
      cases r2 with
      | error e =>
        have heq : run_pipeline env r fq c dir p ex =
            ((([Event.checkReferenceIndices r, Event.generateExperimentDirectory dir,
               Event.readSamplesFromText fq (some dir)]
              ++ (env.read_samples_from_text fq (some dir)).map
                   (fun s => Event.generateIntermediateFiles s.sample_name)
              ++ ((env.read_samples_from_text fq (some dir)).map
                   (align_events r p)).flatten)
             ++ tm1
             ++ [Event.runHaplotypeCaller
                  ((env.read_samples_from_text fq (some dir)).map
                    (fun s => s.merged_bam)) r
                  (joinPath (joinPath dir "gatk_output") "haplotype_caller_output.vcf")
                  (joinPath (joinPath dir "logs") "haplotype_caller.log") p,
                Event.readChromSizes r])
             ++ tm2, Outcome.failed e) := by
          simp [run_pipeline, hidx, hp1, hp2]
        intro x hx
        rw [heq] at hx ⊢
        have hk : is_create_repeat_file x = false ∧ is_output_write x = false := by
          rcases List.mem_append.mp hx with hx | h2
          · rcases List.mem_append.mp hx with hx | hmid
            · rcases List.mem_append.mp hx with hx | h1
              · exact pipeline_prefix_mem r fq dir p _ x hx
              · exact htm1 x h1
            · simp only [List.mem_cons, List.not_mem_nil, or_false] at hmid
              rcases hmid with rfl | rfl <;> exact ⟨rfl, rfl⟩
          · exact htm2 x h2
        refine ⟨hk.1, ?_⟩
        intro hw
        rw [hk.2] at hw
        simp at hw
      | ok rs =>
        rcases hp3 : pool_map_traced (characterize_repeat_indel_rates env)
            (fun a => Event.repeatIndelTask a.1.repeat_indel_fits)
            (ri_args (assign_strand_bias rs
                (env.read_samples_from_text fq (some dir)))
              (env.read_repeats ((splitext r).1 ++ ".repeats"))) with ⟨tm3, r3⟩
        have htm3 := tm_kinds (characterize_repeat_indel_rates env)
          (fun a => Event.repeatIndelTask a.1.repeat_indel_fits)
          (fun a => ⟨rfl, rfl⟩) _ _ _ hp3
        cases r3 with
        | error e =>
          have heq : run_pipeline env r fq c dir p ex =
              (((((([Event.checkReferenceIndices r,
                  Event.generateExperimentDirectory dir,
                  Event.readSamplesFromText fq (some dir)]
                ++ (env.read_samples_from_text fq (some dir)).map
                     (fun s => Event.generateIntermediateFiles s.sample_name)
                ++ ((env.read_samples_from_text fq (some dir)).map
                     (align_events r p)).flatten)
               ++ tm1
               ++ [Event.runHaplotypeCaller
                    ((env.read_samples_from_text fq (some dir)).map
                      (fun s => s.merged_bam)) r
                    (joinPath (joinPath dir "gatk_output")
                      "haplotype_caller_output.vcf")
                    (joinPath (joinPath dir "logs") "haplotype_caller.log") p,
                  Event.readChromSizes r])
               ++ tm2)
               ++ rs.map (fun iv => Event.assignStrandBias iv.1 iv.2))
               ++ [Event.readRepeats ((splitext r).1 ++ ".repeats")])
               ++ tm3, Outcome.failed e) := by
            simp [run_pipeline, hidx, hp1, hp2, hp3]
          intro x hx
          rw [heq] at hx ⊢
          have hk : is_create_repeat_file x = false ∧ is_output_write x = false := by
            rcases List.mem_append.mp hx with hx | h3
            · rcases List.mem_append.mp hx with hx | hrr
              · rcases List.mem_append.mp hx with hx | ham
                · rcases List.mem_append.mp hx with hx | h2
                  · rcases List.mem_append.mp hx with hx | hmid
                    · rcases List.mem_append.mp hx with hx | h1
                      · exact pipeline_prefix_mem r fq dir p _ x hx
                      · exact htm1 x h1
                    · simp only [List.mem_cons, List.not_mem_nil, or_false] at hmid
                      rcases hmid with rfl | rfl <;> exact ⟨rfl, rfl⟩
                  · exact htm2 x h2
                · rcases List.mem_map.mp ham with ⟨iv, hiv, rfl⟩
                  exact ⟨rfl, rfl⟩
              · simp only [List.mem_singleton] at hrr
                subst hrr
                exact ⟨rfl, rfl⟩
            · exact htm3 x h3
          refine ⟨hk.1, ?_⟩
          intro hw
          rw [hk.2] at hw
          simp at hw
        | ok r3 =>
          have heq := run_pipeline_trace_eq env r fq c dir p ex tm1 r1 tm2 rs tm3
            r3 hidx hp1 hp2 hp3
          intro x hx
          rw [heq] at hx ⊢
          refine ⟨?_, fun _ => rfl⟩
          rcases List.mem_append.mp hx with hx | hinfo
          swap
          · simp only [List.mem_singleton] at hinfo
            subst hinfo
            rfl
          rcases List.mem_append.mp hx with hx | hcm
          swap
          · rcases List.mem_map.mp hcm with ⟨s, hs, rfl⟩
            rfl
          rcases List.mem_append.mp hx with hx | hbww
          swap
          · simp only [List.mem_cons, List.not_mem_nil, or_false] at hbww
            rcases hbww with rfl | rfl | rfl <;> rfl
          rcases List.mem_append.mp hx with hx | hrfm
          swap
          · rcases List.mem_map.mp hrfm with ⟨s, hs, rfl⟩
            rfl
          rcases List.mem_append.mp hx with hx | h3
          swap
          · exact (htm3 x h3).1
          rcases List.mem_append.mp hx with hx | hrr
          swap
          · simp only [List.mem_singleton] at hrr
            subst hrr
            rfl
          rcases List.mem_append.mp hx with hx | ham
          swap
          · rcases List.mem_map.mp ham with ⟨iv, hiv, rfl⟩
            rfl
          rcases List.mem_append.mp hx with hx | h2
          swap
          · exact (htm2 x h2).1
          rcases List.mem_append.mp hx with hx | hmid
          swap
          · simp only [List.mem_cons, List.not_mem_nil, or_false] at hmid
            rcases hmid with rfl | rfl <;> rfl
          rcases List.mem_append.mp hx with hx | h1
          swap
          · exact (htm1 x h1).1
          exact (pipeline_prefix_mem r fq dir p _ x hx).1

/-- C1: evaluation of the repeat-cache behavior showing the divergence on
both entry points.  With the cache ref.repeats absent, a completed
run_pipeline run still reads the repeat file while its trace contains no
createRepeatFile event at all (the builder is imported in pipeline.py but
never called), and call_variants crashes with NameError right at the build
site because call_variants.py never imports create_repeat_file: neither
entry point builds the absent cache.  With the cache present, call_variants
loads without rebuilding and completes, the only half of the claim the code
satisfies. -/
theorem C1_pipeline_reads_repeats_without_building :
    ((run_pipeline env_ok "ref.fa" "fq.txt" "ctl" "exp" 1 none).2 =
       Outcome.completed ∧
     env_ok.path_exists "ref.repeats" = false ∧
     Event.readRepeats "ref.repeats" ∈
       (run_pipeline env_ok "ref.fa" "fq.txt" "ctl" "exp" 1 none).1 ∧
     (run_pipeline env_ok "ref.fa" "fq.txt" "ctl" "exp" 1 none).1.countP
       is_create_repeat_file = 0) ∧
    call_variants env_ok "ref.fa" "ctl" "man.txt" "in.vcf" "out" none none =
      ([Event.readSamplesFromText "man.txt" none,
        Event.createReferenceIndices "ref.fa"],
       Outcome.failed "NameError: name create_repeat_file is not defined") ∧
    ((call_variants env_cache "ref.fa" "ctl" "man.txt" "in.vcf" "out" none
        none).2 = Outcome.completed ∧
     (call_variants env_cache "ref.fa" "ctl" "man.txt" "in.vcf" "out" none
        none).1.countP is_create_repeat_file = 0) := by
  refine ⟨⟨by decide, by decide, by decide, by decide⟩, by decide,
    by decide, by decide⟩

/-- C5: a raised per-sample worker task aborts run_pipeline with no output
artifacts.  First, any run that ends in a propagated worker failure contains
no output-writing event at all.  Second, whenever any of the three pooled
per-sample tasks raises on its argument tuple (SAM processing, depth and bias
analysis, or repeat-indel fitting), the run ends in a failure outcome. -/
theorem C5_worker_failure_fatal :
    ∀ (env : Env) (r fq c dir : String) (p : Nat) (ex : Option String),
      (∀ e, (run_pipeline env r fq c dir p ex).2 = Outcome.failed e →
        ∀ x ∈ (run_pipeline env r fq c dir p ex).1, is_output_write x = false) ∧
      (env.check_reference_indices r = true →
        ((ps_args (env.read_samples_from_text fq (some dir)) r).any
           (fun a => except_failed (process_sams env a)) = true ∨
         (ad_args (env.read_samples_from_text fq (some dir)) r
            (env.read_chrom_sizes r)).any
           (fun a => except_failed (analyze_depth_distribution env a)) = true ∨
         (ri_args (env.read_samples_from_text fq (some dir))
            (env.read_repeats ((splitext r).1 ++ ".repeats"))).any
           (fun a => except_failed (characterize_repeat_indel_rates env a)) = true) →
        ∃ e, (run_pipeline env r fq c dir p ex).2 = Outcome.failed e) := by
  intro env r fq c dir p ex
  constructor
  · intro e hfail x hx
    rcases run_pipeline_event_kinds env r fq c dir p ex x hx with ⟨-, hout⟩
    cases hw : is_output_write x with
    | false => rfl
    | true =>
      rw [hfail] at hout
      exact absurd (hout hw) (by simp)
  · intro hidx hfails
    rcases hp1 : pool_map_traced (process_sams env)
        (fun a => Event.processSamsTask a.1)
        (ps_args (env.read_samples_from_text fq (some dir)) r) with ⟨tm1, r1⟩
    cases r1 with
    | error e => exact ⟨e, by simp [run_pipeline, hidx, hp1]⟩
    | ok r1 =>
      rcases hp2 : pool_map_traced (analyze_depth_distribution env)
          (fun a => Event.analyzeDepthTask a.1)
          (ad_args (env.read_samples_from_text fq (some dir)) r
            (env.read_chrom_sizes r)) with ⟨tm2, r2⟩
      cases r2 with
      | error e => exact ⟨e, by simp [run_pipeline, hidx, hp1, hp2]⟩
      | ok rs =>
        rcases hp3 : pool_map_traced (characterize_repeat_indel_rates env)
            (fun a => Event.repeatIndelTask a.1.repeat_indel_fits)
            (ri_args (assign_strand_bias rs
                (env.read_samples_from_text fq (some dir)))
              (env.read_repeats ((splitext r).1 ++ ".repeats"))) with ⟨tm3, r3⟩
        cases r3 with
        | error e => exact ⟨e, by simp [run_pipeline, hidx, hp1, hp2, hp3]⟩
        | ok r3 =>
          exfalso
          rw [ri_args_assign_strand_bias] at hp3
          rcases hfails with h | h | h
          · rcases List.any_eq_true.mp h with ⟨a, ha, hfa⟩
            rw [pool_map_traced_ok_not_failed _ _ _ _ _ hp1 a ha] at hfa
            cases hfa
          · rcases List.any_eq_true.mp h with ⟨a, ha, hfa⟩
            rw [pool_map_traced_ok_not_failed _ _ _ _ _ hp2 a ha] at hfa
            cases hfa
          · rcases List.any_eq_true.mp h with ⟨a, ha, hfa⟩
            rw [pool_map_traced_ok_not_failed _ _ _ _ _ hp3 a ha] at hfa
            cases hfa

/-- C5 witness: on an environment whose SAM-processing step raises, the
concrete run fails and writes nothing. -/
theorem C5_witness :
    (∃ e, (run_pipeline env_task_fail "ref.fa" "fq.txt" "ctl" "exp" 1 none).2 =
      Outcome.failed e) ∧
    (∀ x ∈ (run_pipeline env_task_fail "ref.fa" "fq.txt" "ctl" "exp" 1 none).1,
      is_output_write x = false) :=
  ⟨(C5_worker_failure_fatal env_task_fail "ref.fa" "fq.txt" "ctl" "exp" 1 none).2
     (by decide) (Or.inl (by decide)),
   (C5_worker_failure_fatal env_task_fail "ref.fa" "fq.txt" "ctl" "exp" 1 none).1
     "boom" (by decide)⟩

theorem updateAt_getD_proj {α γ : Type} (xs : List α) (i j : Nat) (f : α → α)
    (g : α → γ) (d : α) (hg : ∀ x, g (f x) = g x) :
    g ((updateAt xs i f).getD j d) = g (xs.getD j d) := by
  by_cases hij : j = i
  · subst hij
    by_cases hlt : j < xs.length
    · rw [updateAt_getD_self xs j f d hlt, hg]
    · rw [List.getD_eq_default, List.getD_eq_default]
      · omega
      · rw [updateAt_length]; omega
  · rw [updateAt_getD_ne xs i j f d hij]

theorem assign_strand_bias_getD_proj {γ : Type} (results : List (Nat × Int))
    (ss : List Sample) (j : Nat) (g : Sample → γ)
    (hg : ∀ s v, g { s with strand_bias_std := some v } = g s) :
    g ((assign_strand_bias results ss).getD j default) = g (ss.getD j default) := by
  induction results generalizing ss with
  | nil => rfl
  | cons iv rest ih =>
    rw [assign_strand_bias_cons, ih]
    exact updateAt_getD_proj ss iv.1 j _ g default (fun x => hg x iv.2)

theorem assign_repeat_fits_length (env : Env) (ss : List Sample) :
    (assign_repeat_fits env ss).length = ss.length := by
  simp [assign_repeat_fits]

theorem assign_repeat_fits_getD (env : Env) (ss : List Sample) (i : Nat)
    (hi : i < ss.length) :
    (assign_repeat_fits env ss).getD i default =
      { ss.getD i default with
        repeat_indel_fits_dict :=
          some (env.read_fits (ss.getD i default).repeat_indel_fits) } := by
  have h2 : i < (assign_repeat_fits env ss).length := by
    rw [assign_repeat_fits_length]; exact hi
  rw [List.getD_eq_getElem _ _ h2, List.getD_eq_getElem _ _ hi]
  simp [assign_repeat_fits]

theorem rs_structure (env : Env) (samples : List Sample) (r : String)
    (cs : ChromSizes) (tm2 : List Event) (rs : List (Nat × Int))
    (hp2 : pool_map_traced (analyze_depth_distribution env)
      (fun a => Event.analyzeDepthTask a.1) (ad_args samples r cs)
      = (tm2, Except.ok rs)) :
    rs.length = samples.length ∧
    ∀ i < samples.length,
      analyze_depth_distribution env
        (i, (samples.getD i default).intermediate_files, r, cs)
        = Except.ok (i, (rs.getD i default).2) ∧
      (rs.getD i default).1 = i := by
  have hlen : rs.length = (ad_args samples r cs).length :=
    pool_map_traced_ok_length _ _ _ _ _ hp2
  rw [ad_args_length] at hlen
  refine ⟨hlen, ?_⟩
  intro i hi
  have hgd := pool_map_traced_ok_getD _ _ _ _ _ default default hp2 i
    (by rw [ad_args_length]; exact hi)
  rw [ad_args_getD samples r cs i hi] at hgd
  have hfst := (analyze_depth_distribution_ok env i _ r cs _ hgd).1
  refine ⟨?_, hfst⟩
  rw [hgd]
  exact congrArg Except.ok (Prod.ext hfst rfl)

theorem rs_map_fst (rs : List (Nat × Int)) (n : Nat) (hlen : rs.length = n)
    (h : ∀ i < n, (rs.getD i default).1 = i) :
    rs.map Prod.fst = List.range n := by
  apply List.ext_getElem (by simp [hlen])
  intro i h1 h2
  rw [List.getElem_map, List.getElem_range]
  have hi : i < n := by simpa using h2
  have hh := h i hi
  rwa [List.getD_eq_getElem _ _ (by rw [hlen]; exact hi)] at hh

/-- C6: in every completed run_pipeline run the variant list construction is a
barrier point: before it, the trace already contains, for every sample index,
a strand-bias assignment event and a repeat-fits read event merging that
results of each sample into the collection, and everything after it is only output
writing and per-sample cleanup (no characterization or merge activity). -/
theorem C6_barrier_before_aggregation :
    ∀ (env : Env) (r fq c dir : String) (p : Nat) (ex : Option String),
      (run_pipeline env r fq c dir p ex).2 = Outcome.completed →
      ∃ pre post vcf ss ctrl,
        (run_pipeline env r fq c dir p ex).1 =
          pre ++ Event.buildVariantList vcf ss ex ((splitext r).1 ++ ".repeats")
            ctrl (env.read_chrom_sizes r) :: post ∧
        (∀ i < (env.read_samples_from_text fq (some dir)).length,
          ∃ b, Event.assignStrandBias i b ∈ pre) ∧
        (∀ i < (env.read_samples_from_text fq (some dir)).length,
          Event.readFitsAssign
            (((env.read_samples_from_text fq (some dir)).getD i
              default).repeat_indel_fits) ∈ pre) ∧
        (∀ x ∈ post, is_post_aggregation x = true) := by
  intro env r fq c dir p ex hdone
  obtain ⟨hidx, tm1, r1, tm2, rs, tm3, r3, hp1, hp2, hp3⟩ :=
    run_pipeline_completed_pools env r fq c dir p ex hdone
  have hrs := rs_structure env (env.read_samples_from_text fq (some dir)) r
    (env.read_chrom_sizes r) tm2 rs hp2
  rw [run_pipeline_trace_eq env r fq c dir p ex tm1 r1 tm2 rs tm3 r3 hidx hp1 hp2 hp3]
  refine ⟨[Event.checkReferenceIndices r, Event.generateExperimentDirectory dir,
      Event.readSamplesFromText fq (some dir)]
    ++ (env.read_samples_from_text fq (some dir)).map
         (fun s => Event.generateIntermediateFiles s.sample_name)
    ++ ((env.read_samples_from_text fq (some dir)).map (align_events r p)).flatten
    ++ tm1
    ++ [Event.runHaplotypeCaller
         ((env.read_samples_from_text fq (some dir)).map (fun s => s.merged_bam)) r
         (joinPath (joinPath dir "gatk_output") "haplotype_caller_output.vcf")
         (joinPath (joinPath dir "logs") "haplotype_caller.log") p,
       Event.readChromSizes r]
    ++ tm2
    ++ rs.map (fun iv => Event.assignStrandBias iv.1 iv.2)
    ++ [Event.readRepeats ((splitext r).1 ++ ".repeats")]
    ++ tm3
    ++ (assign_repeat_fits env
         (assign_strand_bias rs (env.read_samples_from_text fq (some dir)))).map
         (fun s => Event.readFitsAssign s.repeat_indel_fits),
    [Event.writeOutputTable (joinPath (joinPath dir "output") "mutations.txt"),
     Event.writeOutputVcf (joinPath (joinPath dir "output") "mutations.vcf")]
    ++ (assign_repeat_fits env
         (assign_strand_bias rs (env.read_samples_from_text fq (some dir)))).map
         (fun s => Event.clearTempFileIndices s.sample_name)
    ++ [Event.writeSampleInfoFile
         (assign_repeat_fits env
           (assign_strand_bias rs (env.read_samples_from_text fq (some dir))))
         (joinPath dir "sample_info.txt")],
    joinPath (joinPath dir "gatk_output") "haplotype_caller_output.vcf",
    assign_repeat_fits env
      (assign_strand_bias rs (env.read_samples_from_text fq (some dir))),
    ((env.read_samples_from_text fq (some dir)).findIdx?
        (fun x => x.sample_name == c)).map
      (fun i => (assign_repeat_fits env
        (assign_strand_bias rs (env.read_samples_from_text fq (some dir)))).getD
          i default),
    ?_, ?_, ?_, ?_⟩
  · simp
  · intro i hi
    refine ⟨(rs.getD i default).2, ?_⟩
    have hi2 : i < rs.length := by rw [hrs.1]; exact hi
    have hmem_rs : rs.getD i default ∈ rs := by
      rw [List.getD_eq_getElem _ _ hi2]
      exact List.getElem_mem hi2
    have hmem_am : Event.assignStrandBias i ((rs.getD i default).2) ∈
        rs.map (fun iv => Event.assignStrandBias iv.1 iv.2) := by
      refine List.mem_map.mpr ⟨rs.getD i default, hmem_rs, ?_⟩
      rw [(hrs.2 i hi).2]
    simp only [List.mem_append]
    exact Or.inl (Or.inl (Or.inl (Or.inr hmem_am)))
  · intro i hi
    have hlen2 : i <
        (assign_strand_bias rs (env.read_samples_from_text fq (some dir))).length := by
      rw [assign_strand_bias_length]; exact hi
    have hlen3 : i < (assign_repeat_fits env
        (assign_strand_bias rs (env.read_samples_from_text fq (some dir)))).length := by
      rw [assign_repeat_fits_length]; exact hlen2
    have hmem3 : (assign_repeat_fits env
        (assign_strand_bias rs (env.read_samples_from_text fq (some dir)))).getD
          i default ∈ assign_repeat_fits env
        (assign_strand_bias rs (env.read_samples_from_text fq (some dir))) := by
      rw [List.getD_eq_getElem _ _ hlen3]
      exact List.getElem_mem hlen3
    have hfits : ((assign_repeat_fits env
        (assign_strand_bias rs (env.read_samples_from_text fq (some dir)))).getD
          i default).repeat_indel_fits =
        ((env.read_samples_from_text fq (some dir)).getD i default).repeat_indel_fits := by
      rw [assign_repeat_fits_getD env _ i hlen2]
      exact assign_strand_bias_getD_proj rs _ i
        (fun s => s.repeat_indel_fits) (fun s v => rfl)
    have hmem_rfm : Event.readFitsAssign
        (((env.read_samples_from_text fq (some dir)).getD i
          default).repeat_indel_fits) ∈
        (assign_repeat_fits env
          (assign_strand_bias rs (env.read_samples_from_text fq (some dir)))).map
          (fun s => Event.readFitsAssign s.repeat_indel_fits) := by
      refine List.mem_map.mpr ⟨_, hmem3, ?_⟩
      rw [hfits]
    simp only [List.mem_append]
    exact Or.inr hmem_rfm
  · intro x hx
    rcases List.mem_append.mp hx with hx | hinfo
    · rcases List.mem_append.mp hx with hww | hcm
      · simp only [List.mem_cons, List.not_mem_nil, or_false] at hww
        rcases hww with rfl | rfl <;> rfl
      · rcases List.mem_map.mp hcm with ⟨s, hs, rfl⟩
        rfl
    · simp only [List.mem_singleton] at hinfo
      subst hinfo
      rfl

/-- C6 witness: the barrier decomposition evaluated on a concrete completed
run. -/
theorem C6_witness :
    (run_pipeline env_ok "ref.fa" "fq.txt" "ctl" "exp" 1 none).2 =
      Outcome.completed ∧
    (∃ pre post vcf ss ctrl,
      (run_pipeline env_ok "ref.fa" "fq.txt" "ctl" "exp" 1 none).1 =
        pre ++ Event.buildVariantList vcf ss none
          ((splitext "ref.fa").1 ++ ".repeats") ctrl
          (env_ok.read_chrom_sizes "ref.fa") :: post ∧
      (∀ i < (env_ok.read_samples_from_text "fq.txt" (some "exp")).length,
        ∃ b, Event.assignStrandBias i b ∈ pre) ∧
      (∀ i < (env_ok.read_samples_from_text "fq.txt" (some "exp")).length,
        Event.readFitsAssign
          (((env_ok.read_samples_from_text "fq.txt" (some "exp")).getD i
            default).repeat_indel_fits) ∈ pre) ∧
      (∀ x ∈ post, is_post_aggregation x = true)) :=
  ⟨by decide,
   C6_barrier_before_aggregation env_ok "ref.fa" "fq.txt" "ctl" "exp" 1 none
     (by decide)⟩

/-- C7: analyze_depth_distribution returns the passed index paired with the
strand-bias standard deviation fitted from the mpileup output of that same sample;
the merge loop assigns each returned value to the sample at the returned
index, and the assignment is insensitive to the order in which the result
pairs arrive as long as the indices are distinct; consequently, in every
completed run the sample list handed to the variant list has, for every sample, the fields
strand_bias_std and repeat_indel_fits_dict populated from the data of that same
sample. -/
theorem C7_results_merged_by_index :
    (∀ (env : Env) (i : Nat) (f : IntermediateFiles) (r : String)
       (cs : ChromSizes) (q : Nat × Int),
      analyze_depth_distribution env (i, f, r, cs) = Except.ok q →
      q.1 = i ∧ ∃ x, env.calculate_bias_distribution_mpileup f.mpileup_out r
        f.strand_bias_distribution = Except.ok (x, q.2)) ∧
    (∀ (results results2 : List (Nat × Int)) (ss : List Sample) (i : Nat) (v : Int),
      (results.map Prod.fst).Nodup → results2.Perm results → (i, v) ∈ results →
      i < ss.length →
      (assign_strand_bias results2 ss).getD i default =
        { ss.getD i default with strand_bias_std := some v }) ∧
    (∀ (env : Env) (r fq c dir : String) (p : Nat) (ex : Option String),
      (run_pipeline env r fq c dir p ex).2 = Outcome.completed →
      ∃ vcf ctrl ss,
        Event.buildVariantList vcf ss ex ((splitext r).1 ++ ".repeats") ctrl
          (env.read_chrom_sizes r) ∈ (run_pipeline env r fq c dir p ex).1 ∧
        ss.length = (env.read_samples_from_text fq (some dir)).length ∧
        ∀ i < (env.read_samples_from_text fq (some dir)).length,
          ∃ b, analyze_depth_distribution env
              (i, ((env.read_samples_from_text fq (some dir)).getD i
                default).intermediate_files, r, env.read_chrom_sizes r)
              = Except.ok (i, b) ∧
            (ss.getD i default).strand_bias_std = some b ∧
            (ss.getD i default).repeat_indel_fits_dict =
              some (env.read_fits
                (((env.read_samples_from_text fq (some dir)).getD i
                  default).repeat_indel_fits))) := by
  refine ⟨?_, ?_, ?_⟩
  · intro env i f r cs q h
    exact analyze_depth_distribution_ok env i f r cs q h
  · intro results results2 ss i v hnd hperm hmem hlen
    have hnd2 : (results2.map Prod.fst).Nodup :=
      ((hperm.map Prod.fst).nodup_iff).mpr hnd
    have hmem2 : (i, v) ∈ results2 := hperm.mem_iff.mpr hmem
    exact assign_strand_bias_getD_mem results2 ss i v hnd2 hmem2 hlen
  · intro env r fq c dir p ex hdone
    obtain ⟨hidx, tm1, r1, tm2, rs, tm3, r3, hp1, hp2, hp3⟩ :=
      run_pipeline_completed_pools env r fq c dir p ex hdone
    have hrs := rs_structure env (env.read_samples_from_text fq (some dir)) r
      (env.read_chrom_sizes r) tm2 rs hp2
    have hnodup : (rs.map Prod.fst).Nodup := by
      rw [rs_map_fst rs (env.read_samples_from_text fq (some dir)).length hrs.1
        (fun i hi => (hrs.2 i hi).2)]
      exact List.nodup_range _
    rw [run_pipeline_trace_eq env r fq c dir p ex tm1 r1 tm2 rs tm3 r3 hidx hp1
      hp2 hp3]
    refine ⟨joinPath (joinPath dir "gatk_output") "haplotype_caller_output.vcf",
      ((env.read_samples_from_text fq (some dir)).findIdx?
          (fun x => x.sample_name == c)).map
        (fun i => (assign_repeat_fits env
          (assign_strand_bias rs (env.read_samples_from_text fq (some dir)))).getD
            i default),
      assign_repeat_fits env
        (assign_strand_bias rs (env.read_samples_from_text fq (some dir))),
      ?_, ?_, ?_⟩
    · simp
    · rw [assign_repeat_fits_length, assign_strand_bias_length]
    · intro i hi
      have hlen2 : i <
          (assign_strand_bias rs (env.read_samples_from_text fq (some dir))).length := by
        rw [assign_strand_bias_length]; exact hi
      have hmem_rs : (i, (rs.getD i default).2) ∈ rs := by
        have hpair : rs.getD i default = (i, (rs.getD i default).2) :=
          Prod.ext ((hrs.2 i hi).2) rfl
        rw [← hpair]
        have hi2 : i < rs.length := by rw [hrs.1]; exact hi
        rw [List.getD_eq_getElem _ _ hi2]
        exact List.getElem_mem hi2
      have hsb2 : (assign_strand_bias rs
          (env.read_samples_from_text fq (some dir))).getD i default =
          { (env.read_samples_from_text fq (some dir)).getD i default with
            strand_bias_std := some ((rs.getD i default).2) } :=
        assign_strand_bias_getD_mem rs _ i _ hnodup hmem_rs hi
      refine ⟨(rs.getD i default).2, (hrs.2 i hi).1, ?_, ?_⟩
      · rw [assign_repeat_fits_getD env _ i hlen2]
        simp only []
        rw [hsb2]
      · rw [assign_repeat_fits_getD env _ i hlen2]
        simp only []
        rw [assign_strand_bias_getD_proj rs _ i
          (fun s => s.repeat_indel_fits) (fun s v => rfl)]

/-- C7 witness: the merged sample fields evaluated on a concrete completed
run with two samples whose bias values differ. -/
theorem C7_witness :
    (run_pipeline env_ok "ref.fa" "fq.txt" "ctl" "exp" 1 none).2 =
      Outcome.completed ∧
    (∃ vcf ctrl ss,
      Event.buildVariantList vcf ss none ((splitext "ref.fa").1 ++ ".repeats")
        ctrl (env_ok.read_chrom_sizes "ref.fa") ∈
        (run_pipeline env_ok "ref.fa" "fq.txt" "ctl" "exp" 1 none).1 ∧
      ss.length = (env_ok.read_samples_from_text "fq.txt" (some "exp")).length ∧
      ∀ i < (env_ok.read_samples_from_text "fq.txt" (some "exp")).length,
        ∃ b, analyze_depth_distribution env_ok
            (i, ((env_ok.read_samples_from_text "fq.txt" (some "exp")).getD i
              default).intermediate_files, "ref.fa",
             env_ok.read_chrom_sizes "ref.fa") = Except.ok (i, b) ∧
          (ss.getD i default).strand_bias_std = some b ∧
          (ss.getD i default).repeat_indel_fits_dict =
            some (env_ok.read_fits
              (((env_ok.read_samples_from_text "fq.txt" (some "exp")).getD i
                default).repeat_indel_fits))) :=
  ⟨by decide,
   C7_results_merged_by_index.2.2 env_ok "ref.fa" "fq.txt" "ctl" "exp" 1 none
     (by decide)⟩

end Muver
